import Mathlib

/-!
# Verification of the velociraptor-python field classification and catalogue layer

This file gives a shallow embedding, in Lean 4, of the core of the
`velociraptor-python` repository: the registration-rule field classifier
(`velociraptor/registration.py`, `velociraptor/objects.py`,
`velociraptor/catalogue.py`), the name translators
(`velociraptor/translator.py`, `velociraptor/catalogue/translator.py`),
the lazy cached accessors (`generate_getter`/`generate_setter`/
`generate_deleter` and `CatalogueDataset.get_value`/`set_value`/`del_value`),
and the SOAP catalogue facade (`velociraptor/catalogue/soap_catalogue.py`).

Machine integers do not occur (the code manipulates strings and small
naturals); fallible Python code is embedded with `Option`/`Except`, and the
Python regular-expression engine is embedded as a small backtracking matcher
(`PyRe`) covering exactly the constructs used by the registration patterns
(literals, character classes, greedy `*` over a class, greedy `?`, ordered
alternation, capture groups), with Python `re.match` (prefix, anchored-left,
leftmost-greedy) semantics.
-/

/-! ## ASCII string helpers mirroring the Python `str` methods used -/

/-- Python `str.lower` restricted to ASCII (all field names are ASCII). -/
def pyLowerChar (c : Char) : Char :=
  if 'A' ≤ c ∧ c ≤ 'Z' then Char.ofNat (c.toNat + 32) else c

/-- Python `str.upper` restricted to ASCII. -/
def pyUpperChar (c : Char) : Char :=
  if 'a' ≤ c ∧ c ≤ 'z' then Char.ofNat (c.toNat - 32) else c

def pyLower (s : String) : String := String.mk (s.data.map pyLowerChar)

def pyUpper (s : String) : String := String.mk (s.data.map pyUpperChar)

/-- `[a-z]` -/
def isLowerAlpha (c : Char) : Bool := 'a' ≤ c ∧ c ≤ 'z'

/-- `[A-Z]` -/
def isUpperAlpha (c : Char) : Bool := 'A' ≤ c ∧ c ≤ 'Z'

/-- `[a-zA-Z]` -/
def isAlphaChar (c : Char) : Bool := isLowerAlpha c || isUpperAlpha c

/-- `[0-9]` -/
def isDigitChar (c : Char) : Bool := '0' ≤ c ∧ c ≤ '9'

/-- `[a-zA-Z0-9]` -/
def isAlnumChar (c : Char) : Bool := isAlphaChar c || isDigitChar c

/-- `[^_]` -/
def isNotUnderscore (c : Char) : Bool := c ≠ '_'

/-- `[a-zA-Z0-9_]` -/
def isWordChar (c : Char) : Bool := isAlnumChar c || c = '_'

/-- Python `int` on a string of decimal digits. -/
def digitsToNat (ds : List Char) : Nat :=
  ds.foldl (fun a c => 10 * a + (c.toNat - '0'.toNat)) 0

/-! ## A small Python-regex engine

Backtracking matcher with Python `re.match` semantics for the fragment used
by the registration patterns: literal strings, a single character class,
greedy `*` over a character class, greedy `?`, ordered alternation `|`, and
numbered capture groups. `re.match` anchors at the start of the string and
does not require the whole string to be consumed.
-/

namespace PyRe

inductive RE where
  /-- a literal string -/
  | lit (s : List Char)
  /-- a single character of a class, e.g. `[a-z]` -/
  | cls (p : Char → Bool)
  /-- greedy `*` over a character class, e.g. `[a-z]*` -/
  | starCls (p : Char → Bool)
  /-- greedy `?` -/
  | opt (r : RE)
  /-- ordered alternation `a|b` -/
  | alt (a b : RE)
  | seq (a b : RE)
  /-- numbered capture group `( ... )` -/
  | grp (i : Nat) (r : RE)

/-- Captures: group number to captured characters.  The most recent binding
of a group (head of the list) wins; a group absent from the list did not
participate in the match (Python's `m.group(i) is None`). -/
abbrev Caps := List (Nat × List Char)

def setCap (caps : Caps) (i : Nat) (s : List Char) : Caps := (i, s) :: caps

/-- Python `m.group(i)`: `none` when the group did not participate. -/
def getCap (caps : Caps) (i : Nat) : Option (List Char) :=
  (caps.find? (fun x => x.1 = i)).map (·.2)

/-- Length of the maximal prefix run of characters satisfying `p`. -/
def runLen (p : Char → Bool) : List Char → Nat
  | [] => 0
  | c :: cs => if p c then runLen p cs + 1 else 0

/-- Greedy star backtracking: try consuming `n` characters first, then
`n - 1`, ..., down to `0`. -/
def tryStar {σ : Type} (k : List Char → Caps → Option σ) (cs : List Char)
    (caps : Caps) : Nat → Option σ
  | 0 => k cs caps
  | n + 1 =>
    match k (cs.drop (n + 1)) caps with
    | some r => some r
    | none => tryStar k cs caps n

/-- The backtracking matcher in continuation-passing style.  `reM r cs caps k`
tries to match `r` against a prefix of `cs` and calls `k` with the rest and
the updated captures; alternatives are explored in Python's order (greedy,
leftmost alternative first). -/
def reM {σ : Type} : RE → List Char → Caps → (List Char → Caps → Option σ) → Option σ
  | .lit s, cs, caps, k => if s.isPrefixOf cs then k (cs.drop s.length) caps else none
  | .cls p, cs, caps, k =>
    match cs with
    | [] => none
    | c :: rest => if p c then k rest caps else none
  | .starCls p, cs, caps, k => tryStar k cs caps (runLen p cs)
  | .opt r, cs, caps, k =>
    match reM r cs caps k with
    | some res => some res
    | none => k cs caps
  | .alt a b, cs, caps, k =>
    match reM a cs caps k with
    | some res => some res
    | none => reM b cs caps k
  | .seq a b, cs, caps, k => reM a cs caps (fun cs' caps' => reM b cs' caps' k)
  | .grp i r, cs, caps, k =>
    reM r cs caps (fun cs' caps' => k cs' (setCap caps' i (cs.take (cs.length - cs'.length))))

/-- Python `re.match(pattern, s)`: anchored prefix match returning captures. -/
def pymatch (r : RE) (s : List Char) : Option Caps :=
  reM r s [] (fun _ caps => some caps)

/-- Concatenation of a pattern list into nested `seq`. -/
def cat : List RE → RE
  | [] => .lit []
  | [r] => r
  | r :: rs => .seq r (cat rs)

/-- Python truthiness of `m.group(i)` (`None` and `""` are falsy). -/
def truthy (o : Option (List Char)) : Bool :=
  match o with
  | some (_ :: _) => true
  | _ => false

end PyRe

/-! ## Units (`velociraptor/objects.py` `VelociraptorUnits`)

The unit values themselves are opaque quantities read from the file header;
we embed them as syntactic unit expressions.  `unyt.dimensionless` and unit
products are the only unit algebra the registration functions perform. -/

inductive PhysUnit where
  | length
  | mass
  | velocity
  | metallicity
  | age
  | star_formation_rate
  | dimensionless
  | mul (a b : PhysUnit)
deriving DecidableEq, Repr

/-- The unit attributes of `VelociraptorUnits` consumed by the registration
functions (`objects.py` lines 58-65, unpacked to attributes at lines 76-77). -/
structure VelociraptorUnits where
  length : PhysUnit
  mass : PhysUnit
  velocity : PhysUnit
  metallicity : PhysUnit
  age : PhysUnit
  star_formation_rate : PhysUnit
deriving DecidableEq, Repr

/-! ## Python exceptions that can escape the code under study -/

inductive PyError where
  /-- tuple-unpacking a non-iterable (`None`) -/
  | typeError
  /-- dictionary lookup miss -/
  | keyError
  /-- `int("")` -/
  | valueError
  /-- `field_path[0]` on an empty string -/
  | indexError
  /-- reading a local variable that was never assigned -/
  | unboundLocal
  /-- attribute lookup miss outside the `except AttributeError` blocks -/
  | attributeError
deriving DecidableEq, Repr

/-- Outcome of calling one registration function on one raw field name.
`RegistrationDoesNotMatchError` is the only exception the caller catches,
so it gets its own constructor (`noMatch`); any other raised exception is
`raises`; `retNone` is a plain `return None` (which the caller will then
fail to tuple-unpack). -/
inductive RegOutcome where
  | matched (unit : PhysUnit) (name : String) (snake_case : String)
  | noMatch
  | retNone
  | raises (e : PyError)
deriving DecidableEq, Repr

abbrev RegRule := String → VelociraptorUnits → RegOutcome

/-! ## The legacy translator (`velociraptor/translator.py`)

This is the module actually imported by `velociraptor/registration.py`. -/

namespace Translator

/-- `typo_correct` (`translator.py` lines 11-21). -/
def typo_correct (particle_property_name : String) : String :=
  let key : List (String × String) := [("veldips", "veldisp")]
  match key.lookup particle_property_name with
  | some v => v
  | none => particle_property_name

/-- `get_aperture_unit` (`translator.py` lines 24-42).  The dictionary lookup
`key[corrected_name]` raises `KeyError` for a quantity keyword absent from
the table. -/
def get_aperture_unit (unit_name : String) (unit_system : VelociraptorUnits) :
    Except PyError PhysUnit :=
  let corrected_name := typo_correct unit_name
  let key : List (String × PhysUnit) := [
    ("SFR", unit_system.star_formation_rate),
    ("Zmet", unit_system.metallicity),
    ("mass", unit_system.mass),
    ("npart", .dimensionless),
    ("rhalfmass", unit_system.length),
    ("veldisp", unit_system.velocity)]
  match key.lookup corrected_name with
  | some u => .ok u
  | none => .error .keyError

/-- `get_particle_property_name_conversion` (`translator.py` lines 45-81).
`key[combined_name]` raises `KeyError` on a miss. -/
def get_particle_property_name_conversion (name : String) (ptype : String) :
    Except PyError String :=
  let corrected_name := typo_correct name
  let combined_name := corrected_name ++ "_" ++ ptype
  let key : List (String × String) := [
    ("SFR_", "SFR $\\dot\x7b\\rho\x7d_*$"),
    ("SFR_gas", "Gas SFR $\\dot\x7b\\rho\x7d_*$"),
    ("Zmet_", "Metallicity $Z$"),
    ("Zmet_gas", "Gas Metallicity $Z_\x7b\\rm g\x7d$"),
    ("Zmet_star", "Stellar Metallicity $Z_*$"),
    ("Zmet_bh", "Black Hole Metallicity $Z_\x7b\\rm BH\x7d$"),
    ("mass_", "Mass $M$"),
    ("mass_gas", "Gas Mass $M_\x7b\\rm g\x7d$"),
    ("mass_star", "Stellar Mass $M_*$"),
    ("mass_bh", "Black Hole Mass $M_\x7b\\rm BH\x7d$"),
    ("npart_", "Number of Particles $N$"),
    ("npart_gas", "Number of Gas Particles $N_\x7b\\rm g\x7d$"),
    ("npart_star", "Number of Stellar Particles $N_*$"),
    ("npart_bh", "Black Hole Mass $N_\x7b\\rm BH\x7d$"),
    ("rhalfmass_", "Half-mass Radius $R_\x7b50\x7d$"),
    ("rhalfmass_gas", "Gas Half-mass Radius $R_\x7b50, \x7b\\rm g\x7d\x7d$"),
    ("rhalfmass_star", "Stellar Half-mass Radius $R_\x7b50, *\x7d$"),
    ("rhalfmass_bh", "Black Hole Half-mass Radius $R_\x7b50, \x7b\\rm BH\x7d\x7d$"),
    ("veldisp_", "Velocity Dispersion $\\sigma$"),
    ("veldisp_gas", "Gas Velocity Dispersion $\\sigma_\x7b\\rm g\x7d\x7d$"),
    ("veldisp_star", "Stellar Velocity Dispersion $\\sigma_\x7b*\x7d$"),
    ("veldisp_bh", "Black Hole Velocity Dispersion $\\sigma_\x7b\\rm BH\x7d$")]
  match key.lookup combined_name with
  | some v => .ok v
  | none => .error .keyError

end Translator

/-! ## Registration functions (`velociraptor/registration.py`) -/

open PyRe in
/-- `registration_fail_all` (`registration.py` lines 21-48). -/
def registration_fail_all (field_path : String) (unit_system : VelociraptorUnits) :
    RegOutcome :=
  if field_path = "ThisFieldPathWouldNeverExist" then
    .matched unit_system.length "Fancy $N_\x7b\\rm ever\x7d$ exists"
      "this_field_path_would_never_exist"
  else
    .noMatch

open PyRe in
/-- `"Aperture_([^_]*)_([a-zA-Z]*)?_?([a-zA-Z]*)?_?([0-9]*)_kpc"`
(`registration.py` line 63). -/
def apertureRE : RE := cat [
  .lit "Aperture_".data,
  .grp 1 (.starCls isNotUnderscore),
  .lit "_".data,
  .opt (.grp 2 (.starCls isAlphaChar)),
  .opt (.lit "_".data),
  .opt (.grp 3 (.starCls isAlphaChar)),
  .opt (.lit "_".data),
  .grp 4 (.starCls isDigitChar),
  .lit "_kpc".data]

open PyRe in
/-- `registration_apertures` (`registration.py` lines 51-87).  Group 2, if it
did not participate (`None`), is rendered by the f-string in
`get_particle_property_name_conversion` as the text `"None"`; `int` of an
empty group 4 raises `ValueError`; the unit and name table lookups can raise
`KeyError` (see `Translator`). -/
def registration_apertures (field_path : String) (unit_system : VelociraptorUnits) :
    RegOutcome :=
  match pymatch apertureRE field_path.data with
  | none => .noMatch
  | some caps =>
    let quantity := String.mk ((getCap caps 1).getD [])
    let ptype :=
      match getCap caps 2 with
      | some l => String.mk l
      | none => "None"
    let star_forming := getCap caps 3
    let g4 := (getCap caps 4).getD []
    if g4.isEmpty then .raises .valueError else
    let aperture_size := digitsToNat g4
    match Translator.get_aperture_unit quantity unit_system with
    | .error e => .raises e
    | .ok unit =>
      match Translator.get_particle_property_name_conversion quantity ptype with
      | .error e => .raises e
      | .ok name =>
        let sf_in_name := if truthy star_forming
          then pyUpper (String.mk (star_forming.getD [])) ++ " " else ""
        let full_name := sf_in_name ++ name ++ " (" ++ toString aperture_size ++ " kpc)"
        .matched unit full_name (pyLower field_path)

open PyRe in
/-- `"Projected_aperture_([0-9])_([^_]*)_([a-zA-Z]*)?_?([a-zA-Z]*)?_?([0-9]*)_kpc"`
(`registration.py` lines 103-105). -/
def projectedApertureRE : RE := cat [
  .lit "Projected_aperture_".data,
  .grp 1 (.cls isDigitChar),
  .lit "_".data,
  .grp 2 (.starCls isNotUnderscore),
  .lit "_".data,
  .opt (.grp 3 (.starCls isAlphaChar)),
  .opt (.lit "_".data),
  .opt (.grp 4 (.starCls isAlphaChar)),
  .opt (.lit "_".data),
  .grp 5 (.starCls isDigitChar),
  .lit "_kpc".data]

open PyRe in
/-- `registration_projected_apertures` (`registration.py` lines 90-130). -/
def registration_projected_apertures (field_path : String)
    (unit_system : VelociraptorUnits) : RegOutcome :=
  match pymatch projectedApertureRE field_path.data with
  | none => .noMatch
  | some caps =>
    let aperture := String.mk ((getCap caps 1).getD [])
    let quantity := String.mk ((getCap caps 2).getD [])
    let ptype :=
      match getCap caps 3 with
      | some l => String.mk l
      | none => "None"
    let star_forming := getCap caps 4
    let g5 := (getCap caps 5).getD []
    if g5.isEmpty then .raises .valueError else
    let aperture_size := digitsToNat g5
    match Translator.get_aperture_unit quantity unit_system with
    | .error e => .raises e
    | .ok unit =>
      match Translator.get_particle_property_name_conversion quantity ptype with
      | .error e => .raises e
      | .ok name =>
        let sf_in_name := if truthy star_forming
          then pyUpper (String.mk (star_forming.getD [])) ++ " " else ""
        let full_name := sf_in_name ++ name ++ " (Projection " ++ aperture ++ ", " ++
          toString aperture_size ++ " kpc)"
        .matched unit full_name (pyLower field_path)

/-- `registration_energies` (`registration.py` lines 133-158).
`field_path[0]` on an empty string raises `IndexError`. -/
def registration_energies (field_path : String) (unit_system : VelociraptorUnits) :
    RegOutcome :=
  match field_path.data.head? with
  | none => .raises .indexError
  | some c0 =>
    if ¬ (c0 = 'E') then .noMatch
    else if field_path.data.take 5 = "Efrac".data then
      .matched .dimensionless "Energy Fraction" (pyLower field_path)
    else
      let full_name :=
        if field_path.data.take 4 = "Ekin".data then "Kinetic Energy"
        else if field_path.data.take 4 = "Epot".data then "Potential Energy"
        else "Energy"
      .matched (.mul (.mul unit_system.mass unit_system.velocity) unit_system.velocity)
        full_name (pyLower field_path)

/-- `registration_particle_ids` (`registration.py` lines 161-185).  The raise
condition is `not field_path[:2] == "ID" or field_path[:-2] == "ID"` with
Python's precedence `(not (field_path[:2] == "ID")) or (field_path[:-2] == "ID")`. -/
def registration_particle_ids (field_path : String) (_unit_system : VelociraptorUnits) :
    RegOutcome :=
  if ¬ (field_path.data.take 2 = "ID".data) ∨
      field_path.data.take (field_path.data.length - 2) = "ID".data then
    .noMatch
  else
    let full_name :=
      if field_path = "ID" then "Halo ID"
      else if field_path = "ID_mpb" then "ID of Most Bound Particle"
      else if field_path = "ID_minpot" then "ID of Particle at Potential Minimum"
      else if field_path = "hostHaloID" then "Host Halo ID"
      else "Generic ID"
    .matched .dimensionless full_name (pyLower field_path)

open PyRe in
/-- `"Krot_?([a-z]*)_?([a-z]*)?"` (`registration.py` line 205). -/
def krotRE : RE := cat [
  .lit "Krot".data,
  .opt (.lit "_".data),
  .grp 1 (.starCls isLowerAlpha),
  .opt (.lit "_".data),
  .opt (.grp 2 (.starCls isLowerAlpha))]

open PyRe in
/-- `registration_rotational_support` (`registration.py` lines 188-226).  The
base label is the raw literal `r"$\kappa_{{\rm rot}"` (the doubled brace is in
the source). -/
def registration_rotational_support (field_path : String)
    (_unit_system : VelociraptorUnits) : RegOutcome :=
  match field_path.data.head? with
  | none => .raises .indexError
  | some c0 =>
    if ¬ (c0 = 'K') then .noMatch
    else
      match pymatch krotRE field_path.data with
      | none => .noMatch
      | some caps =>
        let ptype := getCap caps 1
        let star_forming := getCap caps 2
        let base := "$\\kappa_\x7b\x7b\\rm rot\x7d"
        let withPtype := if truthy ptype
          then base ++ ", \x7b\\rm " ++ String.mk (ptype.getD []) ++ "\x7d"
          else base
        let withBrace := withPtype ++ "\x7d$"
        let full_name := if truthy star_forming
          then withBrace ++ " (" ++ pyUpper (String.mk (star_forming.getD [])) ++ ")"
          else withBrace
        .matched .dimensionless full_name (pyLower field_path)

open PyRe in
/-- `"L([a-z])_?([A-Z]*[0-9]+[a-z]*)?_?(excl)?_?([a-z]*)_?([a-z]*)"`
(`registration.py` line 249). -/
def angularMomentumRE : RE := cat [
  .lit "L".data,
  .grp 1 (.cls isLowerAlpha),
  .opt (.lit "_".data),
  .opt (.grp 2 (cat [.starCls isUpperAlpha, .cls isDigitChar, .starCls isDigitChar,
    .starCls isLowerAlpha])),
  .opt (.lit "_".data),
  .opt (.grp 3 (.lit "excl".data)),
  .opt (.lit "_".data),
  .grp 4 (.starCls isLowerAlpha),
  .opt (.lit "_".data),
  .grp 5 (.starCls isLowerAlpha)]

/-- Python `ptype[0].upper() + ptype[1:]` (only evaluated under `if ptype:`,
so the list is non-empty there). -/
def capitalizePtype (l : List Char) : String :=
  match l with
  | [] => ""
  | c :: rest => String.mk (pyUpperChar c :: rest)

open PyRe in
/-- `registration_angular_momentum` (`registration.py` lines 229-286). -/
def registration_angular_momentum (field_path : String)
    (unit_system : VelociraptorUnits) : RegOutcome :=
  match field_path.data.head? with
  | none => .raises .indexError
  | some c0 =>
    if ¬ (c0 = 'L') then .noMatch
    else
      match pymatch angularMomentumRE field_path.data with
      | none => .noMatch
      | some caps =>
        let axis := getCap caps 1
        let radius := getCap caps 2
        let excluding := getCap caps 3
        let ptype := getCap caps 4
        let star_forming := getCap caps 5
        let n1 := "$L_\x7b"
        let n2 := if truthy axis then n1 ++ String.mk (axis.getD []) else n1
        let n3 := if truthy radius
          then n2 ++ ", \x7b\\rm " ++ String.mk (radius.getD []) ++ "\x7d" else n2
        let n4 := n3 ++ "\x7d$"
        let full_name := if truthy ptype then
            n4 ++ " (" ++ (if truthy excluding then "Excl. " else "") ++
              capitalizePtype (ptype.getD []) ++
              (if truthy star_forming
                then ", " ++ pyUpper (String.mk (star_forming.getD [])) else "") ++ ")"
          else n4
        .matched (.mul unit_system.length unit_system.velocity) full_name
          (pyLower field_path)

open PyRe in
/-- `"(Mass|M)_?([A-Z]*[0-9]+[a-z]*)?_?(excl)?_?([a-z]*)_?(nsf|sf)?_?([a-zA-Z0-9]*)"`
(`registration.py` lines 319-321). -/
def massRE : RE := cat [
  .grp 1 (.alt (.lit "Mass".data) (.lit "M".data)),
  .opt (.lit "_".data),
  .opt (.grp 2 (cat [.starCls isUpperAlpha, .cls isDigitChar, .starCls isDigitChar,
    .starCls isLowerAlpha])),
  .opt (.lit "_".data),
  .opt (.grp 3 (.lit "excl".data)),
  .opt (.lit "_".data),
  .grp 4 (.starCls isLowerAlpha),
  .opt (.lit "_".data),
  .opt (.grp 5 (.alt (.lit "nsf".data) (.lit "sf".data))),
  .opt (.lit "_".data),
  .grp 6 (.starCls isAlnumChar)]

open PyRe in
/-- `registration_masses` (`registration.py` lines 289-357).  The regex-built
name is only used when no special case set `full_name`
(`if match and not full_name:`); either way the function returns. -/
def registration_masses (field_path : String) (unit_system : VelociraptorUnits) :
    RegOutcome :=
  match field_path.data.head? with
  | none => .raises .indexError
  | some c0 =>
    if ¬ (c0 = 'M') then .noMatch
    else
      let special :=
        if field_path = "Mvir" then "$M_\x7b\\rm vir\x7d$"
        else if field_path = "Mass_FOF" then "$M_\x7b\\rm FOF\x7d$"
        else if field_path = "Mass_tot" then "$M$"
        else ""
      let full_name :=
        match pymatch massRE field_path.data with
        | none => special
        | some caps =>
          if special = "" then
            let radius := getCap caps 2
            let excluding := getCap caps 3
            let ptype := getCap caps 4
            let star_forming := getCap caps 5
            let other := getCap caps 6
            let n1 := "$M"
            let n2 := if truthy radius
              then n1 ++ "_\x7b\\rm " ++ String.mk (radius.getD []) ++ "\x7d"
              else if truthy other
                then n1 ++ "_\x7b\\rm " ++ String.mk (other.getD []) ++ "\x7d"
                else n1
            let n3 := n2 ++ "$"
            if truthy ptype then
              n3 ++ " (" ++ (if truthy excluding then "Excl. " else "") ++
                capitalizePtype (ptype.getD []) ++
                (if truthy star_forming
                  then ", " ++ pyUpper (String.mk (star_forming.getD [])) else "") ++ ")"
            else n3
          else special
      .matched unit_system.mass full_name (pyLower field_path)

open PyRe in
/-- `"RVmax_((eig|veldisp)_([a-z]{2}))?_?(L([a-z]))?_?([a-zA-Z0-9_]*)"`
(`registration.py` line 375). -/
def rvmaxRE : RE := cat [
  .lit "RVmax_".data,
  .opt (.grp 1 (cat [.grp 2 (.alt (.lit "eig".data) (.lit "veldisp".data)),
    .lit "_".data, .grp 3 (cat [.cls isLowerAlpha, .cls isLowerAlpha])])),
  .opt (.lit "_".data),
  .opt (.grp 4 (cat [.lit "L".data, .grp 5 (.cls isLowerAlpha)])),
  .opt (.lit "_".data),
  .grp 6 (.starCls isWordChar)]

open PyRe in
/-- `registration_rvmax_quantities` (`registration.py` lines 360-382).  The
body is unfinished in the source: when the regex matches it raises
`RegistrationDoesNotMatchError`, and when it does not match the function falls
through to `return  # TODO`, i.e. it returns `None`. -/
def registration_rvmax_quantities (field_path : String)
    (_unit_system : VelociraptorUnits) : RegOutcome :=
  if ¬ (field_path.data.take 5 = "RVmax".data) then .noMatch
  else
    match pymatch rvmaxRE field_path.data with
    | some _ => .noMatch
    | none => .retNone

open PyRe in
/-- `"R_([a-zA-Z0-9]*)_?(excl)?_?([a-z]*)?_?(sf|nsf)?"` (`registration.py`
line 406). -/
def radiiRE : RE := cat [
  .lit "R_".data,
  .grp 1 (.starCls isAlnumChar),
  .opt (.lit "_".data),
  .opt (.grp 2 (.lit "excl".data)),
  .opt (.lit "_".data),
  .opt (.grp 3 (.starCls isLowerAlpha)),
  .opt (.lit "_".data),
  .opt (.grp 4 (.alt (.lit "sf".data) (.lit "nsf".data)))]

open PyRe in
/-- `registration_radii` (`registration.py` lines 385-438).  `full_name` is
only assigned by the two special cases or inside `if match:`; reaching the
final `return` with neither assignment would raise `UnboundLocalError` (this
is unreachable because the pattern matches every name starting `R_`). -/
def registration_radii (field_path : String) (unit_system : VelociraptorUnits) :
    RegOutcome :=
  let special : Option String :=
    if field_path = "Rvir" then some "$R_\x7b\\rm vir\x7d$"
    else if field_path = "Rmax" then some "$R_\x7b\\rm max\x7d$"
    else none
  if special.isNone ∧ ¬ (field_path.data.take 2 = "R_".data) then .noMatch
  else
    match pymatch radiiRE field_path.data with
    | some caps =>
      let radius := getCap caps 1
      let excluding := getCap caps 2
      let ptype := getCap caps 3
      let star_forming := getCap caps 4
      let n1 := "$R"
      let n2 := if truthy radius
        then n1 ++ "_\x7b\\rm " ++ String.mk (radius.getD []) ++ "\x7d" else n1
      let n3 := n2 ++ "$"
      let full_name := if truthy ptype then
          n3 ++ " (" ++ (if truthy excluding then "Excl. " else "") ++
            capitalizePtype (ptype.getD []) ++
            (if truthy star_forming
              then ", " ++ pyUpper (String.mk (star_forming.getD [])) else "") ++ ")"
        else n3
      .matched unit_system.length full_name (pyLower field_path)
    | none =>
      match special with
      | some name => .matched unit_system.length name (pyLower field_path)
      | none => .raises .unboundLocal

/-- `global_registration_functions` (`registration.py` lines 443-454), in
source order. -/
def global_registration_functions : List RegRule := [
  registration_particle_ids,
  registration_energies,
  registration_rotational_support,
  registration_masses,
  registration_radii,
  registration_rvmax_quantities,
  registration_angular_momentum,
  registration_projected_apertures,
  registration_apertures,
  registration_fail_all]

/-! ## Field metadata classification
(`velociraptor/objects.py` lines 82-148 / `velociraptor/catalogue.py` lines
19-85; both variants have the identical loop body). -/

/-- The mutable fields of `VelociraptorFieldMetadata` touched by
`register_field_properties`.  Python initialises `valid = False` and the unit,
name and snake-case name to empty strings; the still-unset unit is modelled
as `none`. -/
structure FieldMeta where
  valid : Bool := false
  unit : Option PhysUnit := none
  name : String := ""
  snake_case : String := ""
deriving DecidableEq, Repr

/-- The `for reg in self.registration_functions:` loop of
`register_field_properties` (`objects.py` lines 138-146): each rule is tried
in order; a successful tuple return overwrites the metadata and the loop
KEEPS GOING (there is no `break`); `RegistrationDoesNotMatchError` is caught
and skipped; a `None` return raises `TypeError` at the tuple unpacking; any
other exception propagates.  A propagating exception aborts the whole pass. -/
def registerFieldLoop (field_path : String) (units : VelociraptorUnits)
    (meta : FieldMeta) : List RegRule → Except PyError FieldMeta
  | [] => .ok meta
  | reg :: rest =>
    match reg field_path units with
    | .matched u n s =>
      registerFieldLoop field_path units ⟨true, some u, n, s⟩ rest
    | .noMatch => registerFieldLoop field_path units meta rest
    | .retNone => .error .typeError
    | .raises e => .error e

/-- `VelociraptorFieldMetadata.register_field_properties`. -/
def register_field_properties (registration_functions : List RegRule)
    (field_path : String) (units : VelociraptorUnits) : Except PyError FieldMeta :=
  registerFieldLoop field_path units {} registration_functions

/-! ## The successor-format translator (`velociraptor/catalogue/translator.py`) -/

namespace CatalogueTranslator

/-- `typo_correct` (`catalogue/translator.py` lines 922-932). -/
def typo_correct (particle_property_name : String) : String :=
  let key : List (String × String) := [("veldips", "veldisp")]
  match key.lookup particle_property_name with
  | some v => v
  | none => particle_property_name

/-- `get_aperture_unit` (`catalogue/translator.py` lines 935-957).  Unlike the
legacy variant, this lowercases the corrected keyword and uses `dict.get`, so
an unknown quantity keyword yields `None` instead of raising `KeyError`. -/
def get_aperture_unit (unit_name : String) (unit_system : VelociraptorUnits) :
    Option PhysUnit :=
  let corrected_name := pyLower (typo_correct unit_name)
  let key : List (String × PhysUnit) := [
    ("sfr", unit_system.star_formation_rate),
    ("zmet", unit_system.metallicity),
    ("mass", unit_system.mass),
    ("npart", .dimensionless),
    ("rhalfmass", unit_system.length),
    ("veldisp", unit_system.velocity),
    ("r", unit_system.length),
    ("lx", .mul unit_system.length unit_system.velocity),
    ("ly", .mul unit_system.length unit_system.velocity),
    ("lz", .mul unit_system.length unit_system.velocity)]
  key.lookup corrected_name

/-- The static `VR_to_SOAP_translator` dictionary (`catalogue/translator.py`
lines 19-912): legacy dotted path to (SOAP path, column index, `-1` meaning
the whole array).  All 304 entries, in source order; the keys are distinct. -/
def VR_to_SOAP_translator : List (String × String × Int) := [
  ("stellar_luminosities.u_luminosity_100_kpc", "exclusivesphere.100kpc.stellarluminosity", 0),
  ("stellar_luminosities.u_luminosity_10_kpc", "exclusivesphere.10kpc.stellarluminosity", 0),
  ("stellar_luminosities.u_luminosity_30_kpc", "exclusivesphere.30kpc.stellarluminosity", 0),
  ("stellar_luminosities.u_luminosity_50_kpc", "exclusivesphere.50kpc.stellarluminosity", 0),
  ("stellar_luminosities.g_luminosity_100_kpc", "exclusivesphere.100kpc.stellarluminosity", 1),
  ("stellar_luminosities.g_luminosity_10_kpc", "exclusivesphere.10kpc.stellarluminosity", 1),
  ("stellar_luminosities.g_luminosity_30_kpc", "exclusivesphere.30kpc.stellarluminosity", 1),
  ("stellar_luminosities.g_luminosity_50_kpc", "exclusivesphere.50kpc.stellarluminosity", 1),
  ("stellar_luminosities.r_luminosity_100_kpc", "exclusivesphere.100kpc.stellarluminosity", 2),
  ("stellar_luminosities.r_luminosity_10_kpc", "exclusivesphere.10kpc.stellarluminosity", 2),
  ("stellar_luminosities.r_luminosity_30_kpc", "exclusivesphere.30kpc.stellarluminosity", 2),
  ("stellar_luminosities.r_luminosity_50_kpc", "exclusivesphere.50kpc.stellarluminosity", 2),
  ("stellar_luminosities.i_luminosity_100_kpc", "exclusivesphere.100kpc.stellarluminosity", 3),
  ("stellar_luminosities.i_luminosity_10_kpc", "exclusivesphere.10kpc.stellarluminosity", 3),
  ("stellar_luminosities.i_luminosity_30_kpc", "exclusivesphere.30kpc.stellarluminosity", 3),
  ("stellar_luminosities.i_luminosity_50_kpc", "exclusivesphere.50kpc.stellarluminosity", 3),
  ("stellar_luminosities.z_luminosity_100_kpc", "exclusivesphere.100kpc.stellarluminosity", 4),
  ("stellar_luminosities.z_luminosity_10_kpc", "exclusivesphere.10kpc.stellarluminosity", 4),
  ("stellar_luminosities.z_luminosity_30_kpc", "exclusivesphere.30kpc.stellarluminosity", 4),
  ("stellar_luminosities.z_luminosity_50_kpc", "exclusivesphere.50kpc.stellarluminosity", 4),
  ("stellar_luminosities.Y_luminosity_100_kpc", "exclusivesphere.100kpc.stellarluminosity", 5),
  ("stellar_luminosities.Y_luminosity_10_kpc", "exclusivesphere.10kpc.stellarluminosity", 5),
  ("stellar_luminosities.Y_luminosity_30_kpc", "exclusivesphere.30kpc.stellarluminosity", 5),
  ("stellar_luminosities.Y_luminosity_50_kpc", "exclusivesphere.50kpc.stellarluminosity", 5),
  ("stellar_luminosities.J_luminosity_100_kpc", "exclusivesphere.100kpc.stellarluminosity", 6),
  ("stellar_luminosities.J_luminosity_10_kpc", "exclusivesphere.10kpc.stellarluminosity", 6),
  ("stellar_luminosities.J_luminosity_30_kpc", "exclusivesphere.30kpc.stellarluminosity", 6),
  ("stellar_luminosities.J_luminosity_50_kpc", "exclusivesphere.50kpc.stellarluminosity", 6),
  ("stellar_luminosities.H_luminosity_100_kpc", "exclusivesphere.100kpc.stellarluminosity", 7),
  ("stellar_luminosities.H_luminosity_10_kpc", "exclusivesphere.10kpc.stellarluminosity", 7),
  ("stellar_luminosities.H_luminosity_30_kpc", "exclusivesphere.30kpc.stellarluminosity", 7),
  ("stellar_luminosities.H_luminosity_50_kpc", "exclusivesphere.50kpc.stellarluminosity", 7),
  ("stellar_luminosities.K_luminosity_100_kpc", "exclusivesphere.100kpc.stellarluminosity", 8),
  ("stellar_luminosities.K_luminosity_10_kpc", "exclusivesphere.10kpc.stellarluminosity", 8),
  ("stellar_luminosities.K_luminosity_30_kpc", "exclusivesphere.30kpc.stellarluminosity", 8),
  ("stellar_luminosities.K_luminosity_50_kpc", "exclusivesphere.50kpc.stellarluminosity", 8),
  ("apertures.sfr_gas_100_kpc", "exclusivesphere.100kpc.starformationrate", -1),
  ("apertures.sfr_gas_10_kpc", "exclusivesphere.10kpc.starformationrate", -1),
  ("apertures.sfr_gas_30_kpc", "exclusivesphere.30kpc.starformationrate", -1),
  ("apertures.sfr_gas_50_kpc", "exclusivesphere.50kpc.starformationrate", -1),
  ("apertures.zmet_gas_100_kpc", "exclusivesphere.100kpc.gasmassinmetals", -1),
  ("apertures.zmet_gas_10_kpc", "exclusivesphere.10kpc.gasmassinmetals", -1),
  ("apertures.zmet_gas_30_kpc", "exclusivesphere.30kpc.gasmassinmetals", -1),
  ("apertures.zmet_gas_50_kpc", "exclusivesphere.50kpc.gasmassinmetals", -1),
  ("apertures.zmet_gas_sf_100_kpc", "exclusivesphere.100kpc.starforminggasmassinmetals", -1),
  ("apertures.zmet_gas_sf_10_kpc", "exclusivesphere.10kpc.starforminggasmassinmetals", -1),
  ("apertures.zmet_gas_sf_30_kpc", "exclusivesphere.30kpc.starforminggasmassinmetals", -1),
  ("apertures.zmet_gas_sf_50_kpc", "exclusivesphere.50kpc.starforminggasmassinmetals", -1),
  ("apertures.zmet_star_100_kpc", "exclusivesphere.100kpc.stellarmassinmetals", -1),
  ("apertures.zmet_star_10_kpc", "exclusivesphere.10kpc.stellarmassinmetals", -1),
  ("apertures.zmet_star_30_kpc", "exclusivesphere.30kpc.stellarmassinmetals", -1),
  ("apertures.zmet_star_50_kpc", "exclusivesphere.50kpc.stellarmassinmetals", -1),
  ("apertures.mass_100_kpc", "exclusivesphere.100kpc.totalmass", -1),
  ("apertures.mass_10_kpc", "exclusivesphere.10kpc.totalmass", -1),
  ("apertures.mass_30_kpc", "exclusivesphere.30kpc.totalmass", -1),
  ("apertures.mass_50_kpc", "exclusivesphere.50kpc.totalmass", -1),
  ("apertures.mass_bh_100_kpc", "exclusivesphere.100kpc.blackholesdynamicalmass", -1),
  ("apertures.mass_bh_10_kpc", "exclusivesphere.10kpc.blackholesdynamicalmass", -1),
  ("apertures.mass_bh_30_kpc", "exclusivesphere.30kpc.blackholesdynamicalmass", -1),
  ("apertures.mass_bh_50_kpc", "exclusivesphere.50kpc.blackholesdynamicalmass", -1),
  ("apertures.mass_gas_100_kpc", "exclusivesphere.100kpc.gasmass", -1),
  ("apertures.mass_gas_10_kpc", "exclusivesphere.10kpc.gasmass", -1),
  ("apertures.mass_gas_30_kpc", "exclusivesphere.30kpc.gasmass", -1),
  ("apertures.mass_gas_50_kpc", "exclusivesphere.50kpc.gasmass", -1),
  ("apertures.mass_gas_sf_100_kpc", "exclusivesphere.100kpc.starforminggasmass", -1),
  ("apertures.mass_gas_sf_10_kpc", "exclusivesphere.10kpc.starforminggasmass", -1),
  ("apertures.mass_gas_sf_30_kpc", "exclusivesphere.30kpc.starforminggasmass", -1),
  ("apertures.mass_gas_sf_50_kpc", "exclusivesphere.50kpc.starforminggasmass", -1),
  ("apertures.mass_hight_100_kpc", "exclusivesphere.100kpc.totalmass", -1),
  ("apertures.mass_hight_10_kpc", "exclusivesphere.10kpc.totalmass", -1),
  ("apertures.mass_hight_30_kpc", "exclusivesphere.30kpc.totalmass", -1),
  ("apertures.mass_hight_50_kpc", "exclusivesphere.50kpc.totalmass", -1),
  ("apertures.mass_star_100_kpc", "exclusivesphere.100kpc.stellarmass", -1),
  ("apertures.mass_star_10_kpc", "exclusivesphere.10kpc.stellarmass", -1),
  ("apertures.mass_star_30_kpc", "exclusivesphere.30kpc.stellarmass", -1),
  ("apertures.mass_star_50_kpc", "exclusivesphere.50kpc.stellarmass", -1),
  ("apertures.npart_bh_100_kpc", "exclusivesphere.100kpc.numberofblackholeparticles", -1),
  ("apertures.npart_bh_10_kpc", "exclusivesphere.10kpc.numberofblackholeparticles", -1),
  ("apertures.npart_bh_30_kpc", "exclusivesphere.30kpc.numberofblackholeparticles", -1),
  ("apertures.npart_bh_50_kpc", "exclusivesphere.50kpc.numberofblackholeparticles", -1),
  ("apertures.npart_gas_100_kpc", "exclusivesphere.100kpc.numberofgasparticles", -1),
  ("apertures.npart_gas_10_kpc", "exclusivesphere.10kpc.numberofgasparticles", -1),
  ("apertures.npart_gas_30_kpc", "exclusivesphere.30kpc.numberofgasparticles", -1),
  ("apertures.npart_gas_50_kpc", "exclusivesphere.50kpc.numberofgasparticles", -1),
  ("apertures.npart_star_100_kpc", "exclusivesphere.100kpc.numberofstarparticles", -1),
  ("apertures.npart_star_10_kpc", "exclusivesphere.10kpc.numberofstarparticles", -1),
  ("apertures.npart_star_30_kpc", "exclusivesphere.30kpc.numberofstarparticles", -1),
  ("apertures.npart_star_50_kpc", "exclusivesphere.50kpc.numberofstarparticles", -1),
  ("apertures.rhalfmass_gas_100_kpc", "exclusivesphere.100kpc.halfmassradiusgas", -1),
  ("apertures.rhalfmass_gas_10_kpc", "exclusivesphere.10kpc.halfmassradiusgas", -1),
  ("apertures.rhalfmass_gas_30_kpc", "exclusivesphere.30kpc.halfmassradiusgas", -1),
  ("apertures.rhalfmass_gas_50_kpc", "exclusivesphere.50kpc.halfmassradiusgas", -1),
  ("apertures.rhalfmass_star_100_kpc", "exclusivesphere.100kpc.halfmassradiusstars", -1),
  ("apertures.rhalfmass_star_10_kpc", "exclusivesphere.10kpc.halfmassradiusstars", -1),
  ("apertures.rhalfmass_star_30_kpc", "exclusivesphere.30kpc.halfmassradiusstars", -1),
  ("apertures.rhalfmass_star_50_kpc", "exclusivesphere.50kpc.halfmassradiusstars", -1),
  ("angular_momentum.lx_200c_gas", "so.200_crit.angularmomentumgas", 0),
  ("angular_momentum.lx_200c_star", "so.200_crit.angularmomentumstars", 0),
  ("angular_momentum.lx_200m_gas", "so.200_mean.angularmomentumgas", 0),
  ("angular_momentum.lx_200m_star", "so.200_mean.angularmomentumstars", 0),
  ("angular_momentum.lx_bn98_gas", "so.bn98.angularmomentumgas", 0),
  ("angular_momentum.lx_bn98_star", "so.bn98.angularmomentumstars", 0),
  ("angular_momentum.lx_gas", "boundsubhaloproperties.angularmomentumgas", 0),
  ("angular_momentum.lx_star", "boundsubhaloproperties.angularmomentumstars", 0),
  ("angular_momentum.ly_200c_gas", "so.200_crit.angularmomentumgas", 1),
  ("angular_momentum.ly_200c_star", "so.200_crit.angularmomentumstars", 1),
  ("angular_momentum.ly_200m_gas", "so.200_mean.angularmomentumgas", 1),
  ("angular_momentum.ly_200m_star", "so.200_mean.angularmomentumstars", 1),
  ("angular_momentum.ly_bn98_gas", "so.bn98.angularmomentumgas", 1),
  ("angular_momentum.ly_bn98_star", "so.bn98.angularmomentumstars", 1),
  ("angular_momentum.ly_gas", "boundsubhaloproperties.angularmomentumgas", 1),
  ("angular_momentum.ly_star", "boundsubhaloproperties.angularmomentumstars", 1),
  ("angular_momentum.lz_200c_gas", "so.200_crit.angularmomentumgas", 2),
  ("angular_momentum.lz_200c_star", "so.200_crit.angularmomentumstars", 2),
  ("angular_momentum.lz_200m_gas", "so.200_mean.angularmomentumgas", 2),
  ("angular_momentum.lz_200m_star", "so.200_mean.angularmomentumstars", 2),
  ("angular_momentum.lz_bn98_gas", "so.bn98.angularmomentumgas", 2),
  ("angular_momentum.lz_bn98_star", "so.bn98.angularmomentumstars", 2),
  ("angular_momentum.lz_gas", "boundsubhaloproperties.angularmomentumgas", 2),
  ("angular_momentum.lz_star", "boundsubhaloproperties.angularmomentumstars", 2),
  ("masses.mass_200crit", "so.200_crit.totalmass", -1),
  ("masses.mass_200crit_gas", "so.200_crit.gasmass", -1),
  ("masses.mass_200crit_star", "so.200_crit.stellarmass", -1),
  ("masses.mass_200mean", "so.200_mean.totalmass", -1),
  ("masses.mass_200mean_gas", "so.200_mean.gasmass", -1),
  ("masses.mass_200mean_star", "so.200_mean.stellarmass", -1),
  ("masses.mass_bn98", "so.bn98.totalmass", -1),
  ("masses.mass_bn98_gas", "so.bn98.gasmass", -1),
  ("masses.mass_bn98_star", "so.bn98.stellarmass", -1),
  ("masses.mass_fof", "fofsubhaloproperties.totalmass", -1),
  ("masses.mass_bh", "boundsubhaloproperties.blackholesdynamicalmass", -1),
  ("masses.mass_gas", "boundsubhaloproperties.gasmass", -1),
  ("masses.mass_star", "boundsubhaloproperties.stellarmass", -1),
  ("masses.mass_tot", "boundsubhaloproperties.totalmass", -1),
  ("projected_apertures.projected_1_sfr_gas_100_kpc", "projectedaperture.100kpc.projx.starformationrate", -1),
  ("projected_apertures.projected_1_sfr_gas_10_kpc", "projectedaperture.10kpc.projx.starformationrate", -1),
  ("projected_apertures.projected_1_sfr_gas_30_kpc", "projectedaperture.30kpc.projx.starformationrate", -1),
  ("projected_apertures.projected_1_sfr_gas_50_kpc", "projectedaperture.50kpc.projx.starformationrate", -1),
  ("projected_apertures.projected_1_mass_100_kpc", "projectedaperture.100kpc.projx.totalmass", -1),
  ("projected_apertures.projected_1_mass_10_kpc", "projectedaperture.10kpc.projx.totalmass", -1),
  ("projected_apertures.projected_1_mass_30_kpc", "projectedaperture.30kpc.projx.totalmass", -1),
  ("projected_apertures.projected_1_mass_50_kpc", "projectedaperture.50kpc.projx.totalmass", -1),
  ("projected_apertures.projected_1_mass_gas_100_kpc", "projectedaperture.100kpc.projx.gasmass", -1),
  ("projected_apertures.projected_1_mass_gas_10_kpc", "projectedaperture.10kpc.projx.gasmass", -1),
  ("projected_apertures.projected_1_mass_gas_30_kpc", "projectedaperture.30kpc.projx.gasmass", -1),
  ("projected_apertures.projected_1_mass_gas_50_kpc", "projectedaperture.50kpc.projx.gasmass", -1),
  ("projected_apertures.projected_1_mass_star_100_kpc", "projectedaperture.100kpc.projx.stellarmass", -1),
  ("projected_apertures.projected_1_mass_star_10_kpc", "projectedaperture.10kpc.projx.stellarmass", -1),
  ("projected_apertures.projected_1_mass_star_30_kpc", "projectedaperture.30kpc.projx.stellarmass", -1),
  ("projected_apertures.projected_1_mass_star_50_kpc", "projectedaperture.50kpc.projx.stellarmass", -1),
  ("projected_apertures.projected_1_rhalfmass_gas_100_kpc", "projectedaperture.100kpc.projx.halfmassradiusgas", -1),
  ("projected_apertures.projected_1_rhalfmass_gas_10_kpc", "projectedaperture.10kpc.projx.halfmassradiusgas", -1),
  ("projected_apertures.projected_1_rhalfmass_gas_30_kpc", "projectedaperture.30kpc.projx.halfmassradiusgas", -1),
  ("projected_apertures.projected_1_rhalfmass_gas_50_kpc", "projectedaperture.50kpc.projx.halfmassradiusgas", -1),
  ("projected_apertures.projected_1_rhalfmass_star_100_kpc", "projectedaperture.100kpc.projx.halfmassradiusstars", -1),
  ("projected_apertures.projected_1_rhalfmass_star_10_kpc", "projectedaperture.10kpc.projx.halfmassradiusstars", -1),
  ("projected_apertures.projected_1_rhalfmass_star_30_kpc", "projectedaperture.30kpc.projx.halfmassradiusstars", -1),
  ("projected_apertures.projected_1_rhalfmass_star_50_kpc", "projectedaperture.50kpc.projx.halfmassradiusstars", -1),
  ("projected_apertures.projected_2_sfr_gas_100_kpc", "projectedaperture.100kpc.projy.starformationrate", -1),
  ("projected_apertures.projected_2_sfr_gas_10_kpc", "projectedaperture.10kpc.projy.starformationrate", -1),
  ("projected_apertures.projected_2_sfr_gas_30_kpc", "projectedaperture.30kpc.projy.starformationrate", -1),
  ("projected_apertures.projected_2_sfr_gas_50_kpc", "projectedaperture.50kpc.projy.starformationrate", -1),
  ("projected_apertures.projected_2_mass_100_kpc", "projectedaperture.100kpc.projy.totalmass", -1),
  ("projected_apertures.projected_2_mass_10_kpc", "projectedaperture.10kpc.projy.totalmass", -1),
  ("projected_apertures.projected_2_mass_30_kpc", "projectedaperture.30kpc.projy.totalmass", -1),
  ("projected_apertures.projected_2_mass_50_kpc", "projectedaperture.50kpc.projy.totalmass", -1),
  ("projected_apertures.projected_2_mass_gas_100_kpc", "projectedaperture.100kpc.projy.gasmass", -1),
  ("projected_apertures.projected_2_mass_gas_10_kpc", "projectedaperture.10kpc.projy.gasmass", -1),
  ("projected_apertures.projected_2_mass_gas_30_kpc", "projectedaperture.30kpc.projy.gasmass", -1),
  ("projected_apertures.projected_2_mass_gas_50_kpc", "projectedaperture.50kpc.projy.gasmass", -1),
  ("projected_apertures.projected_2_mass_star_100_kpc", "projectedaperture.100kpc.projy.stellarmass", -1),
  ("projected_apertures.projected_2_mass_star_10_kpc", "projectedaperture.10kpc.projy.stellarmass", -1),
  ("projected_apertures.projected_2_mass_star_30_kpc", "projectedaperture.30kpc.projy.stellarmass", -1),
  ("projected_apertures.projected_2_mass_star_50_kpc", "projectedaperture.50kpc.projy.stellarmass", -1),
  ("projected_apertures.projected_2_rhalfmass_gas_100_kpc", "projectedaperture.100kpc.projy.halfmassradiusgas", -1),
  ("projected_apertures.projected_2_rhalfmass_gas_10_kpc", "projectedaperture.10kpc.projy.halfmassradiusgas", -1),
  ("projected_apertures.projected_2_rhalfmass_gas_30_kpc", "projectedaperture.30kpc.projy.halfmassradiusgas", -1),
  ("projected_apertures.projected_2_rhalfmass_gas_50_kpc", "projectedaperture.50kpc.projy.halfmassradiusgas", -1),
  ("projected_apertures.projected_2_rhalfmass_star_100_kpc", "projectedaperture.100kpc.projy.halfmassradiusstars", -1),
  ("projected_apertures.projected_2_rhalfmass_star_10_kpc", "projectedaperture.10kpc.projy.halfmassradiusstars", -1),
  ("projected_apertures.projected_2_rhalfmass_star_30_kpc", "projectedaperture.30kpc.projy.halfmassradiusstars", -1),
  ("projected_apertures.projected_2_rhalfmass_star_50_kpc", "projectedaperture.50kpc.projy.halfmassradiusstars", -1),
  ("projected_apertures.projected_3_sfr_gas_100_kpc", "projectedaperture.100kpc.projz.starformationrate", -1),
  ("projected_apertures.projected_3_sfr_gas_10_kpc", "projectedaperture.10kpc.projz.starformationrate", -1),
  ("projected_apertures.projected_3_sfr_gas_30_kpc", "projectedaperture.30kpc.projz.starformationrate", -1),
  ("projected_apertures.projected_3_sfr_gas_50_kpc", "projectedaperture.50kpc.projz.starformationrate", -1),
  ("projected_apertures.projected_3_mass_100_kpc", "projectedaperture.100kpc.projz.totalmass", -1),
  ("projected_apertures.projected_3_mass_10_kpc", "projectedaperture.10kpc.projz.totalmass", -1),
  ("projected_apertures.projected_3_mass_30_kpc", "projectedaperture.30kpc.projz.totalmass", -1),
  ("projected_apertures.projected_3_mass_50_kpc", "projectedaperture.50kpc.projz.totalmass", -1),
  ("projected_apertures.projected_3_mass_gas_100_kpc", "projectedaperture.100kpc.projz.gasmass", -1),
  ("projected_apertures.projected_3_mass_gas_10_kpc", "projectedaperture.10kpc.projz.gasmass", -1),
  ("projected_apertures.projected_3_mass_gas_30_kpc", "projectedaperture.30kpc.projz.gasmass", -1),
  ("projected_apertures.projected_3_mass_gas_50_kpc", "projectedaperture.50kpc.projz.gasmass", -1),
  ("projected_apertures.projected_3_mass_star_100_kpc", "projectedaperture.100kpc.projz.stellarmass", -1),
  ("projected_apertures.projected_3_mass_star_10_kpc", "projectedaperture.10kpc.projz.stellarmass", -1),
  ("projected_apertures.projected_3_mass_star_30_kpc", "projectedaperture.30kpc.projz.stellarmass", -1),
  ("projected_apertures.projected_3_mass_star_50_kpc", "projectedaperture.50kpc.projz.stellarmass", -1),
  ("projected_apertures.projected_3_rhalfmass_gas_100_kpc", "projectedaperture.100kpc.projz.halfmassradiusgas", -1),
  ("projected_apertures.projected_3_rhalfmass_gas_10_kpc", "projectedaperture.10kpc.projz.halfmassradiusgas", -1),
  ("projected_apertures.projected_3_rhalfmass_gas_30_kpc", "projectedaperture.30kpc.projz.halfmassradiusgas", -1),
  ("projected_apertures.projected_3_rhalfmass_gas_50_kpc", "projectedaperture.50kpc.projz.halfmassradiusgas", -1),
  ("projected_apertures.projected_3_rhalfmass_star_100_kpc", "projectedaperture.100kpc.projz.halfmassradiusstars", -1),
  ("projected_apertures.projected_3_rhalfmass_star_10_kpc", "projectedaperture.10kpc.projz.halfmassradiusstars", -1),
  ("projected_apertures.projected_3_rhalfmass_star_30_kpc", "projectedaperture.30kpc.projz.halfmassradiusstars", -1),
  ("projected_apertures.projected_3_rhalfmass_star_50_kpc", "projectedaperture.50kpc.projz.halfmassradiusstars", -1),
  ("radii.r_200crit", "so.200_crit.soradius", -1),
  ("radii.r_200mean", "so.200_mean.soradius", -1),
  ("radii.r_bn98", "so.bn98.soradius", -1),
  ("radii.r_halfmass", "boundsubhaloproperties.halfmassradiustotal", -1),
  ("radii.r_halfmass_gas", "boundsubhaloproperties.halfmassradiusgas", -1),
  ("radii.r_halfmass_star", "boundsubhaloproperties.halfmassradiusstars", -1),
  ("star_formation_rate.sfr_gas", "boundsubhaloproperties.starformationrate", -1),
  ("spherical_overdensities.lx_gas_1000_rhocrit", "so.1000_crit.angularmomentumgas", 0),
  ("spherical_overdensities.lx_gas_100_rhocrit", "so.100_crit.angularmomentumgas", 0),
  ("spherical_overdensities.lx_gas_200_rhocrit", "so.200_crit.angularmomentumgas", 0),
  ("spherical_overdensities.lx_gas_2500_rhocrit", "so.2500_crit.angularmomentumgas", 0),
  ("spherical_overdensities.lx_gas_500_rhocrit", "so.500_crit.angularmomentumgas", 0),
  ("spherical_overdensities.lx_star_1000_rhocrit", "so.1000_crit.angularmomentumstars", 0),
  ("spherical_overdensities.lx_star_100_rhocrit", "so.100_crit.angularmomentumstars", 0),
  ("spherical_overdensities.lx_star_200_rhocrit", "so.200_crit.angularmomentumstars", 0),
  ("spherical_overdensities.lx_star_2500_rhocrit", "so.2500_crit.angularmomentumstars", 0),
  ("spherical_overdensities.lx_star_500_rhocrit", "so.500_crit.angularmomentumstars", 0),
  ("spherical_overdensities.ly_gas_1000_rhocrit", "so.1000_crit.angularmomentumgas", 1),
  ("spherical_overdensities.ly_gas_100_rhocrit", "so.100_crit.angularmomentumgas", 1),
  ("spherical_overdensities.ly_gas_200_rhocrit", "so.200_crit.angularmomentumgas", 1),
  ("spherical_overdensities.ly_gas_2500_rhocrit", "so.2500_crit.angularmomentumgas", 1),
  ("spherical_overdensities.ly_gas_500_rhocrit", "so.500_crit.angularmomentumgas", 1),
  ("spherical_overdensities.ly_star_1000_rhocrit", "so.1000_crit.angularmomentumstars", 1),
  ("spherical_overdensities.ly_star_100_rhocrit", "so.100_crit.angularmomentumstars", 1),
  ("spherical_overdensities.ly_star_200_rhocrit", "so.200_crit.angularmomentumstars", 1),
  ("spherical_overdensities.ly_star_2500_rhocrit", "so.2500_crit.angularmomentumstars", 1),
  ("spherical_overdensities.ly_star_500_rhocrit", "so.500_crit.angularmomentumstars", 1),
  ("spherical_overdensities.lz_gas_1000_rhocrit", "so.1000_crit.angularmomentumgas", 2),
  ("spherical_overdensities.lz_gas_100_rhocrit", "so.100_crit.angularmomentumgas", 2),
  ("spherical_overdensities.lz_gas_200_rhocrit", "so.200_crit.angularmomentumgas", 2),
  ("spherical_overdensities.lz_gas_2500_rhocrit", "so.2500_crit.angularmomentumgas", 2),
  ("spherical_overdensities.lz_gas_500_rhocrit", "so.500_crit.angularmomentumgas", 2),
  ("spherical_overdensities.lz_star_1000_rhocrit", "so.1000_crit.angularmomentumstars", 2),
  ("spherical_overdensities.lz_star_100_rhocrit", "so.100_crit.angularmomentumstars", 2),
  ("spherical_overdensities.lz_star_200_rhocrit", "so.200_crit.angularmomentumstars", 2),
  ("spherical_overdensities.lz_star_2500_rhocrit", "so.2500_crit.angularmomentumstars", 2),
  ("spherical_overdensities.lz_star_500_rhocrit", "so.500_crit.angularmomentumstars", 2),
  ("spherical_overdensities.mass_1000_rhocrit", "so.1000_crit.totalmass", -1),
  ("spherical_overdensities.mass_100_rhocrit", "so.100_crit.totalmass", -1),
  ("spherical_overdensities.mass_200_rhocrit", "so.200_crit.totalmass", -1),
  ("spherical_overdensities.mass_2500_rhocrit", "so.2500_crit.totalmass", -1),
  ("spherical_overdensities.mass_500_rhocrit", "so.500_crit.totalmass", -1),
  ("spherical_overdensities.mass_gas_1000_rhocrit", "so.1000_crit.gasmass", -1),
  ("spherical_overdensities.mass_gas_100_rhocrit", "so.100_crit.gasmass", -1),
  ("spherical_overdensities.mass_gas_200_rhocrit", "so.200_crit.gasmass", -1),
  ("spherical_overdensities.mass_gas_2500_rhocrit", "so.2500_crit.gasmass", -1),
  ("spherical_overdensities.mass_gas_500_rhocrit", "so.500_crit.gasmass", -1),
  ("spherical_overdensities.mass_star_1000_rhocrit", "so.1000_crit.stellarmass", -1),
  ("spherical_overdensities.mass_star_100_rhocrit", "so.100_crit.stellarmass", -1),
  ("spherical_overdensities.mass_star_200_rhocrit", "so.200_crit.stellarmass", -1),
  ("spherical_overdensities.mass_star_2500_rhocrit", "so.2500_crit.stellarmass", -1),
  ("spherical_overdensities.mass_star_500_rhocrit", "so.500_crit.stellarmass", -1),
  ("spherical_overdensities.r_1000_rhocrit", "so.1000_crit.soradius", -1),
  ("spherical_overdensities.r_100_rhocrit", "so.100_crit.soradius", -1),
  ("spherical_overdensities.r_200_rhocrit", "so.200_crit.soradius", -1),
  ("spherical_overdensities.r_2500_rhocrit", "so.2500_crit.soradius", -1),
  ("spherical_overdensities.r_500_rhocrit", "so.500_crit.soradius", -1),
  ("structure_type.structuretype", "vr.structuretype", -1),
  ("black_hole_masses.max", "boundsubhaloproperties.mostmassiveblackholemass", -1),
  ("temperature.t_gas", "boundsubhaloproperties.gastemperature", -1),
  ("temperature.t_gas_hight_incl", "boundsubhaloproperties.gastemperaturewithoutcoolgas", -1),
  ("velocities.vxc", "boundsubhaloproperties.centreofmassvelocity", 0),
  ("velocities.vyc", "boundsubhaloproperties.centreofmassvelocity", 1),
  ("velocities.vzc", "boundsubhaloproperties.centreofmassvelocity", 2),
  ("velocities.vmax", "boundsubhaloproperties.maximumcircularvelocity", -1),
  ("positions.xc", "boundsubhaloproperties.centreofmass", 0),
  ("positions.xcmbp", "vr.centreofpotential", 0),
  ("positions.xcminpot", "vr.centreofpotential", 0),
  ("positions.yc", "boundsubhaloproperties.centreofmass", 1),
  ("positions.ycmbp", "vr.centreofpotential", 1),
  ("positions.ycminpot", "vr.centreofpotential", 1),
  ("positions.zc", "boundsubhaloproperties.centreofmass", 2),
  ("positions.zcmbp", "vr.centreofpotential", 2),
  ("positions.zcminpot", "vr.centreofpotential", 2),
  ("metallicity.zmet_gas", "boundsubhaloproperties.gasmassinmetals", -1),
  ("metallicity.zmet_star", "boundsubhaloproperties.stellarmassinmetals", -1),
  ("ids.hosthaloid", "vr.hosthaloid", -1),
  ("number.bh", "boundsubhaloproperties.numberofblackholeparticles", -1),
  ("number.gas", "boundsubhaloproperties.numberofgasparticles", -1),
  ("number.star", "boundsubhaloproperties.numberofstarparticles", -1),
  ("veldisp.veldisp_xx_gas", "boundsubhaloproperties.gasvelocitydispersionmatrix", 0),
  ("veldisp.veldisp_xx_star", "boundsubhaloproperties.stellarvelocitydispersionmatrix", 0),
  ("veldisp.veldisp_xy_gas", "boundsubhaloproperties.gasvelocitydispersionmatrix", 3),
  ("veldisp.veldisp_xy_star", "boundsubhaloproperties.stellarvelocitydispersionmatrix", 3),
  ("veldisp.veldisp_xz_gas", "boundsubhaloproperties.gasvelocitydispersionmatrix", 4),
  ("veldisp.veldisp_xz_star", "boundsubhaloproperties.stellarvelocitydispersionmatrix", 4),
  ("veldisp.veldisp_yx_gas", "boundsubhaloproperties.gasvelocitydispersionmatrix", 3),
  ("veldisp.veldisp_yx_star", "boundsubhaloproperties.stellarvelocitydispersionmatrix", 3),
  ("veldisp.veldisp_yy_gas", "boundsubhaloproperties.gasvelocitydispersionmatrix", 1),
  ("veldisp.veldisp_yy_star", "boundsubhaloproperties.stellarvelocitydispersionmatrix", 1),
  ("veldisp.veldisp_yz_gas", "boundsubhaloproperties.gasvelocitydispersionmatrix", 5),
  ("veldisp.veldisp_yz_star", "boundsubhaloproperties.stellarvelocitydispersionmatrix", 5),
  ("veldisp.veldisp_zx_gas", "boundsubhaloproperties.gasvelocitydispersionmatrix", 4),
  ("veldisp.veldisp_zx_star", "boundsubhaloproperties.stellarvelocitydispersionmatrix", 4),
  ("veldisp.veldisp_zy_gas", "boundsubhaloproperties.gasvelocitydispersionmatrix", 5),
  ("veldisp.veldisp_zy_star", "boundsubhaloproperties.stellarvelocitydispersionmatrix", 5),
  ("veldisp.veldisp_zz_gas", "boundsubhaloproperties.gasvelocitydispersionmatrix", 2),
  ("veldisp.veldisp_zz_star", "boundsubhaloproperties.stellarvelocitydispersionmatrix", 2)]

/-- `VR_to_SOAP` (`catalogue/translator.py` lines 11-919): dictionary lookup;
a missing key raises `NotImplementedError` with the quoted message, embedded
as the `Except.error` case. -/
def VR_to_SOAP (particle_property_name : String) : Except String (String × Int) :=
  match VR_to_SOAP_translator.lookup particle_property_name with
  | some v => .ok v
  | none => .error ("No SOAP analogue for property " ++ particle_property_name ++ "!")

end CatalogueTranslator

/-! ## Lazy cached accessors for the flat catalogue
(`velociraptor/catalogue.py` lines 88-142, identical in
`velociraptor/objects.py` lines 151-205). -/

namespace Flat

/-- Observable effect of one `getter` call: the value returned to the caller
(`none` is Python `None`), the new contents of the `self._name` slot, how many
disk read attempts (`h5py.File` open + key access) were performed, and what
was printed. -/
structure GetResult (α : Type) where
  result : Option α
  state : Option α
  reads : Nat
  log : List String
deriving Repr

/-- The property getter produced by `generate_getter`
(`catalogue.py` lines 99-112).  `file` is `handle[field]` in the open file:
`none` models an absent key (`KeyError`), `some w` the unit-tagged array
`unyt.unyt_array(handle[field][...], unit)`.  When the cached slot is `None`
the file is opened and read once; on `KeyError` the failure is printed and
`None` is returned with the slot untouched. -/
def getter {α : Type} (field : String) (file : Option α) (slot : Option α) :
    GetResult α :=
  match slot with
  | some v => ⟨some v, some v, 0, []⟩
  | none =>
    match file with
    | some w => ⟨some w, some w, 1, []⟩
    | none => ⟨none, none, 1, ["Could not read " ++ field]⟩

/-- The property setter produced by `generate_setter` (`catalogue.py` lines
117-127): stores the caller's value in the slot, disk untouched. -/
def setter {α : Type} (value : Option α) (_slot : Option α) : Option α := value

/-- The property deleter produced by `generate_deleter` (`catalogue.py` lines
130-142): resets the slot to `None`. -/
def deleter {α : Type} (_slot : Option α) : Option α := none

end Flat

/-! ## `CatalogueDataset` accessors
(`velociraptor/catalogue/soap_catalogue.py` lines 106-151). -/

namespace CatalogueDataset

/-- `CatalogueDataset.get_value`: lazy read with caching.  `diskValue` stands
for `handle[self.name][:] * self.conversion_factor` with the provenance
`.name` set (lines 147-151); the dataset exists by construction, so the read
always succeeds.  Returns (value, new `_value` slot, disk reads performed). -/
def get_value {α : Type} (diskValue : α) (slot : Option α) : α × Option α × Nat :=
  match slot with
  | some v => (v, some v, 0)
  | none => (diskValue, some diskValue, 1)

/-- `CatalogueDataset.set_value` (lines 106-118). -/
def set_value {α : Type} (value : Option α) (_slot : Option α) : Option α := value

/-- `CatalogueDataset.del_value` (lines 120-131). -/
def del_value {α : Type} (_slot : Option α) : Option α := none

end CatalogueDataset

/-! ## The SOAP catalogue facade
(`velociraptor/catalogue/soap_catalogue.py` lines 186-357). -/

namespace SOAP

/-- The navigable object tree built by `CatalogueGroup._register_elements` /
`_register_properties`: group nodes hold their registered child attributes
(child names already lowercased and, when starting with a digit, rebased with
the `v` prefix, lines 213-226); dataset leaves hold their (lazily read)
values, exposed through the generated properties. -/
inductive CatNode (α : Type) where
  | group (children : List (String × CatNode α))
  | dataset (value : α)

/-- What a successful attribute traversal lands on. -/
inductive Resolved (α : Type) where
  | val (v : α)
  | grp (children : List (String × CatNode α))

/-- Outcome of `get_SOAP_quantity` (lines 325-332). -/
inductive SOAPLookup (α : Type) where
  | found (r : Resolved α)
  /-- `AttributeError` from `reduce(getattr, path, self.root)` -/
  | attrError
  /-- `IndexError` from `path_part[0]` on an empty path component -/
  | indexErr

/-- Python `quantity_name.split(".")`, on character lists: splits at every
dot and keeps empty components (`"".split(".") == [""]`). -/
def splitDotChars : List Char → List (List Char)
  | [] => [[]]
  | c :: rest =>
    let r := splitDotChars rest
    if c = '.' then [] :: r
    else
      match r with
      | h :: t => (c :: h) :: t
      | [] => [[c]]

def pySplitDot (s : String) : List String := (splitDotChars s.data).map String.mk

/-- `f"v{path_part}" if path_part[0].isnumeric() else path_part` (line 327),
for non-empty components. -/
def rebasePart (s : String) : String :=
  match s.data.head? with
  | some c => if isDigitChar c then "v" ++ s else s
  | none => s

/-- `reduce(getattr, path, self.root)`: attribute steps through registered
group children; an access to a dataset child goes through its generated
property and yields the dataset value; any further attribute step on a plain
value raises `AttributeError` (for the names at issue here). -/
def traverse {α : Type} : CatNode α → List String → Option (Resolved α)
  | .group cs, [] => some (.grp cs)
  | .dataset v, [] => some (.val v)
  | .group cs, p :: rest =>
    match cs.lookup p with
    | some n => traverse n rest
    | none => none
  | .dataset _, _ :: _ => none

/-- `SOAPCatalogue.get_SOAP_quantity` (lines 325-332).  (The `names_used`
bookkeeping set is a side effect not observable through the return value and
is not modelled.) -/
def get_SOAP_quantity {α : Type} (root : CatNode α) (quantity_name : String) :
    SOAPLookup α :=
  let parts := pySplitDot quantity_name
  if parts.any (fun p => p.data.isEmpty) then .indexErr
  else
    match traverse root (parts.map rebasePart) with
    | some r => .found r
    | none => .attrError

/-- Observable outcome of `SOAPCatalogue.get_quantity`. -/
inductive QOutcome (α : Type) where
  | value (v : α)
  | group (children : List (String × CatNode α))
  /-- `return None` for an allow-listed known-sometimes-absent quantity,
  after printing `Ignoring missing {quantity_name}...` -/
  | missing
  /-- the `NotImplementedError` from `VR_to_SOAP` re-raised -/
  | notImpl (msg : String)
  | raises (e : PyError)

/-- `SOAPCatalogue.get_quantity` (lines 334-357).  `direct` abstracts stage 1
(`Catalogue.get_quantity`, `catalogue/catalogue.py` lines 19-29: `reduce`
of `getattr` over the dotted path on the catalogue object itself), with
`none` for `AttributeError`.  `col` abstracts the numpy column slice
`quantity[:, colidx]`.  Stage 3's `AttributeError` and the `TypeError` from
slicing a non-array are NOT caught (`except NotImplementedError` only). -/
def get_quantity {α : Type} (direct : String → Option α) (root : CatNode α)
    (col : α → Nat → α) (quantity_name : String) : QOutcome α :=
  match direct quantity_name with
  | some v => .value v
  | none =>
    match get_SOAP_quantity root quantity_name with
    | .found (.val v) => .value v
    | .found (.grp g) => .group g
    | .indexErr => .raises .indexError
    | .attrError =>
      match CatalogueTranslator.VR_to_SOAP quantity_name with
      | .ok (soapName, colidx) =>
        match get_SOAP_quantity root soapName with
        | .found (.val v) => if colidx ≥ 0 then .value (col v colidx.toNat) else .value v
        | .found (.grp g) => if colidx ≥ 0 then .raises .typeError else .group g
        | .attrError => .raises .attributeError
        | .indexErr => .raises .indexError
      | .error msg =>
        if quantity_name = "apertures.veldisp_star_10_kpc" ∨
            quantity_name = "apertures.veldisp_star_30_kpc" then
          .missing
        else
          .notImpl msg

end SOAP

/-! ## Theorems -/

/-- C9: for every bound field whose underlying storage key is absent from the
file at read time (the cache slot is unloaded, so a read occurs), the flat
accessor's getter prints the raw field name, returns `None` to the caller
instead of raising, and leaves the slot unloaded; the `KeyError` is contained
inside the getter, so it cannot abort the caller or touch any other field's
slot. -/
theorem c9_missing_key_soft (α : Type) (field : String) :
    Flat.getter (α := α) field none none =
      ⟨none, none, 1, ["Could not read " ++ field]⟩ :=
  rfl

/-- C10: passing `None` to the setter is observationally the same as calling
the deleter, in both the flat accessors and the `CatalogueDataset` nodes, and
the next get then performs a fresh disk read (returning the file's value, not
a stored `None`); a cache slot that is loaded therefore never holds `None`. -/
theorem c10_set_none_is_delete (α : Type) (field : String) (s : Option α)
    (w d : α) :
    Flat.setter none s = Flat.deleter s ∧
    CatalogueDataset.set_value none s = CatalogueDataset.del_value s ∧
    Flat.getter field (some w) (Flat.setter none s) = ⟨some w, some w, 1, []⟩ ∧
    CatalogueDataset.get_value d (CatalogueDataset.set_value none s) =
      (d, some d, 1) :=
  ⟨rfl, rfl, rfl, rfl⟩

/-- C3: cache round-trip.  Flat accessors: if a get returned the value `v`,
then `set v` followed by `get` returns `v` with zero disk reads; if the
field's key is present in the file with value `w`, `delete` followed by `get`
performs exactly one disk read and returns the re-read `w`.
`CatalogueDataset`: the same two properties, where the read always succeeds
by construction. -/
theorem c3_cache_roundtrip (α : Type) (field : String) (file : Option α)
    (s : Option α) (v : α)
    (hget : (Flat.getter field file s).result = some v) :
    Flat.getter field file (Flat.setter (some v) (Flat.getter field file s).state) =
      ⟨some v, some v, 0, []⟩ ∧
    (∀ w : α, file = some w →
      Flat.getter field file (Flat.deleter (Flat.getter field file s).state) =
        ⟨some w, some w, 1, []⟩) ∧
    (∀ (d : α) (t : Option α),
      CatalogueDataset.get_value d
          (CatalogueDataset.set_value (some (CatalogueDataset.get_value d t).1)
            (CatalogueDataset.get_value d t).2.1) =
        ((CatalogueDataset.get_value d t).1, some (CatalogueDataset.get_value d t).1, 0) ∧
      CatalogueDataset.get_value d
          (CatalogueDataset.del_value (CatalogueDataset.get_value d t).2.1) =
        (d, some d, 1)) := by
  refine ⟨rfl, ?_, ?_⟩
  · rintro w rfl
    rfl
  · intro d t
    cases t <;> exact ⟨rfl, rfl⟩

/-- Witness for C3 at a concrete instantiation: the integer-valued field
`"X"` stored as `7` in the file, starting from an unloaded slot. -/
theorem c3_cache_roundtrip_witness :
    (Flat.getter "X" (some 7) (none : Option Nat)).result = some 7 ∧
    Flat.getter "X" (some 7)
        (Flat.setter (some 7) (Flat.getter "X" (some 7) (none : Option Nat)).state) =
      ⟨some 7, some 7, 0, []⟩ :=
  ⟨rfl, (c3_cache_roundtrip Nat "X" (some 7) none 7 rfl).1⟩

/-- A concrete unit system used to instantiate theorems (the registration
functions only ever read the six unit attributes). -/
def us0 : VelociraptorUnits :=
  ⟨.length, .mass, .velocity, .metallicity, .age, .star_formation_rate⟩

/-- C2: the name `RVmax` passes `registration_rvmax_quantities`' prefix test
(`field_path[:5] == "RVmax"`) but not its inner regex (which requires a
literal `RVmax_`), so the rule falls through to its unfinished
`return  # TODO` and hands `None` back; `register_field_properties` then
fails to tuple-unpack `None`, raising `TypeError`, which is not caught
(`except RegistrationDoesNotMatchError` only) and aborts the entire
classification pass — the claimed fail-closed "treated as no match, keep
classifying" behaviour does not happen. -/
theorem c2_rvmax_aborts_classification :
    registration_rvmax_quantities "RVmax" us0 = .retNone ∧
    register_field_properties global_registration_functions "RVmax" us0 =
      .error .typeError :=
  ⟨rfl, rfl⟩

/-- C6 counterexample: the catch-all rule does NOT signal "no match" for
every raw field name — on the sentinel string it returns a length-unit
classification result. -/
theorem c6_fail_all_counterexample :
    registration_fail_all "ThisFieldPathWouldNeverExist" us0 ≠ .noMatch := by
  decide

/-- C6 (amended): `registration_fail_all` signals "no match" for every raw
field name except the sentinel `"ThisFieldPathWouldNeverExist"` (for which it
returns a result), and it is ordered last in
`global_registration_functions`. -/
theorem c6_fail_all_amended :
    (∀ (us : VelociraptorUnits) (path : String),
      path ≠ "ThisFieldPathWouldNeverExist" →
        registration_fail_all path us = .noMatch) ∧
    global_registration_functions.getLast? = some registration_fail_all := by
  refine ⟨fun us path h => ?_, rfl⟩
  unfold registration_fail_all
  rw [if_neg h]

/-- Witness for C6 at the concrete name `"Mass_tot"`. -/
theorem c6_fail_all_witness :
    registration_fail_all "Mass_tot" us0 = .noMatch :=
  c6_fail_all_amended.1 us0 "Mass_tot" (by decide)

/-- Helper: a `List.lookup` whose key is not among the keys is `none`. -/
theorem lookup_eq_none_of_not_mem_keys {β : Type} (l : List (String × β))
    (a : String) (h : a ∉ l.map Prod.fst) : l.lookup a = none := by
  induction l with
  | nil => rfl
  | cons kv tl ih =>
    simp only [List.map_cons, List.mem_cons, not_or] at h
    obtain ⟨h1, h2⟩ := h
    have hb : (a == kv.1) = false := beq_eq_false_iff_ne.mpr h1
    simp only [List.lookup, hb]
    exact ih h2

/-- C5 counterexample: `Aperture_foo_gas_sf_30_kpc` structurally matches the
aperture pattern, but its quantity keyword `foo` has no entry in the unit
table consulted by `registration_apertures`
(`velociraptor/translator.py`'s `get_aperture_unit` indexes the dictionary
directly), so classification raises `KeyError` — it does not return a label
and canonical name with an unresolved unit. -/
theorem c5_unknown_quantity_counterexample :
    (PyRe.pymatch apertureRE "Aperture_foo_gas_sf_30_kpc".data).isSome = true ∧
    registration_apertures "Aperture_foo_gas_sf_30_kpc" us0 = .raises .keyError :=
  ⟨rfl, rfl⟩

/-- C5 (amended): on the legacy classification path a structurally-matching
aperture name with an unknown quantity keyword makes `registration_apertures`
raise `KeyError` (the unit lookup precedes label construction), for any unit
system; only the successor translator's `get_aperture_unit`
(`catalogue/translator.py`) leaves the unit unresolved, returning `None` for
every keyword missing from its table, without raising. -/
theorem c5_unit_lookup_amended :
    (∀ us : VelociraptorUnits,
      registration_apertures "Aperture_foo_gas_sf_30_kpc" us = .raises .keyError) ∧
    (∀ (q : String) (us : VelociraptorUnits),
      pyLower (CatalogueTranslator.typo_correct q) ∉
        (["sfr", "zmet", "mass", "npart", "rhalfmass", "veldisp", "r",
          "lx", "ly", "lz"] : List String) →
      CatalogueTranslator.get_aperture_unit q us = none) := by
  constructor
  · intro us
    rfl
  · intro q us h
    exact lookup_eq_none_of_not_mem_keys _ _ h

/-- Witness for C5 at the unknown keyword `"foo"`. -/
theorem c5_unit_lookup_witness :
    CatalogueTranslator.get_aperture_unit "foo" us0 = none :=
  c5_unit_lookup_amended.2 "foo" us0 (by decide)

/-! ## C1: which rule's classification is kept -/

/-- Outcomes the classification loop survives: a tuple return, or
`RegistrationDoesNotMatchError` (which the loop catches and skips). -/
def cleanOutcome : RegOutcome → Bool
  | .matched _ _ _ => true
  | .noMatch => true
  | _ => false

/-- The classification one rule produces for a name, when it matches. -/
def matchResult (field_path : String) (units : VelociraptorUnits) (reg : RegRule) :
    Option (PhysUnit × String × String) :=
  match reg field_path units with
  | .matched u n s => some (u, n, s)
  | _ => none

/-- The classification of the FIRST rule in the list that matches — what the
claim says is kept. -/
def firstMatchResult (field_path : String) (units : VelociraptorUnits)
    (rules : List RegRule) : Option (PhysUnit × String × String) :=
  rules.findSome? (matchResult field_path units)

/-- The classification of the LAST rule in the list that matches. -/
def lastMatchResult (field_path : String) (units : VelociraptorUnits)
    (rules : List RegRule) : Option (PhysUnit × String × String) :=
  firstMatchResult field_path units rules.reverse

/-- The classification loop keeps the LAST matching rule's result: since the
`for` loop in `register_field_properties` has no `break`, every rule is
consulted and each successful match overwrites the metadata. -/
theorem registerFieldLoop_last_match (field_path : String)
    (units : VelociraptorUnits) (rules : List RegRule) (meta : FieldMeta)
    (h : ∀ r ∈ rules, cleanOutcome (r field_path units) = true) :
    registerFieldLoop field_path units meta rules =
      .ok (match lastMatchResult field_path units rules with
           | some (u, n, s) => ⟨true, some u, n, s⟩
           | none => meta) := by
  induction rules generalizing meta with
  | nil => rfl
  | cons r rs ih =>
    have hr := h r (List.mem_cons_self _ _)
    have hrest : ∀ x ∈ rs, cleanOutcome (x field_path units) = true :=
      fun x hx => h x (List.mem_cons_of_mem _ hx)
    have hlast : lastMatchResult field_path units (r :: rs) =
        (lastMatchResult field_path units rs).or (matchResult field_path units r) := by
      unfold lastMatchResult firstMatchResult
      rw [List.reverse_cons, List.findSome?_append]
      congr 1
      cases hm : matchResult field_path units r <;> simp [List.findSome?, hm]
    cases hout : r field_path units with
    | matched u n s =>
      have hm : matchResult field_path units r = some (u, n, s) := by
        simp [matchResult, hout]
      simp only [registerFieldLoop, hout]
      rw [ih _ hrest, hlast, hm]
      cases hrs : lastMatchResult field_path units rs with
      | none => rfl
      | some x => rfl
    | noMatch =>
      have hm : matchResult field_path units r = none := by
        simp [matchResult, hout]
      simp only [registerFieldLoop, hout]
      rw [ih _ hrest, hlast, hm, Option.or_none]
    | retNone =>
      rw [hout] at hr
      simp [cleanOutcome] at hr
    | raises e =>
      rw [hout] at hr
      simp [cleanOutcome] at hr

/-- A caller-supplied registration rule matching the raw name `Mvir`, used to
instantiate the claim's "two rules in the list both match the same raw name"
premise (user rules are prepended by `set_registration_functions`:
`extra_registration_functions + global_registration_functions`,
`objects.py` lines 253-258). -/
def custom_mvir_rule : RegRule := fun field_path _ =>
  if field_path = "Mvir" then .matched .dimensionless "Custom Mvir" "custom_mvir"
  else .noMatch

/-- C1 counterexample: with the user rule for `Mvir` prepended, both it and
`registration_masses` match the raw name `Mvir`, and the classification kept
is the LATER rule's (`$M_{\rm vir}$` from `registration_masses`), not the
earlier rule's (`Custom Mvir`): the first matching rule does NOT win, and
later rules ARE consulted. -/
theorem c1_first_match_counterexample :
    custom_mvir_rule "Mvir" us0 =
      .matched .dimensionless "Custom Mvir" "custom_mvir" ∧
    register_field_properties (custom_mvir_rule :: global_registration_functions)
        "Mvir" us0 =
      .ok ⟨true, some .mass, "$M_\x7b\\rm vir\x7d$", "mvir"⟩ ∧
    ("$M_\x7b\\rm vir\x7d$" : String) ≠ "Custom Mvir" :=
  ⟨rfl, rfl, by decide⟩

/-- C1 (amended): for every raw field name and every ordered list of
registration rules on which no rule misbehaves (each rule either matches or
raises `RegistrationDoesNotMatchError`), the classification recorded on the
field's metadata comes from the LAST rule in the list that matches: all rules
are consulted, and when two rules both match the later one's result
overwrites the earlier one's; if no rule matches the metadata stays invalid. -/
theorem c1_last_match_wins (rules : List RegRule) (field_path : String)
    (units : VelociraptorUnits)
    (h : ∀ r ∈ rules, cleanOutcome (r field_path units) = true) :
    register_field_properties rules field_path units =
      .ok (match lastMatchResult field_path units rules with
           | some (u, n, s) => ⟨true, some u, n, s⟩
           | none => ⟨false, none, "", ""⟩) :=
  registerFieldLoop_last_match field_path units rules _ h

/-- Witness for C1: the default rule list on the raw name `Mvir`. -/
theorem c1_last_match_wins_witness :
    register_field_properties global_registration_functions "Mvir" us0 =
      .ok ⟨true, some .mass, "$M_\x7b\\rm vir\x7d$", "mvir"⟩ :=
  (c1_last_match_wins global_registration_functions "Mvir" us0 (by decide)).trans
    (by rfl)

/-! ## C7, C8: facade resolution through the translation table -/

/-- C7: when direct attribute resolution and native tree resolution both fail
with "not found" (`AttributeError`), and the legacy dotted path has a
translation-table entry whose native path resolves to a dataset with values
`v`, `get_quantity` returns the whole `v` when the entry's column index is
`-1` and column `k` of `v` when the index is `k ≥ 0`; and the static table
maps `apertures.mass_star_30_kpc` to the whole dataset at
`exclusivesphere.30kpc.stellarmass`. -/
theorem c7_translated_resolution (α : Type) (direct : String → Option α)
    (root : SOAP.CatNode α) (col : α → Nat → α) (q soapName : String)
    (idx : Int) (v : α)
    (hdirect : direct q = none)
    (hnative : SOAP.get_SOAP_quantity root q = .attrError)
    (htable : CatalogueTranslator.VR_to_SOAP_translator.lookup q =
      some (soapName, idx))
    (hres : SOAP.get_SOAP_quantity root soapName = .found (.val v)) :
    (idx = -1 → SOAP.get_quantity direct root col q = .value v) ∧
    (∀ k : Nat, idx = (k : Int) →
      SOAP.get_quantity direct root col q = .value (col v k)) ∧
    CatalogueTranslator.VR_to_SOAP_translator.lookup "apertures.mass_star_30_kpc" =
      some ("exclusivesphere.30kpc.stellarmass", -1) := by
  have hvr : CatalogueTranslator.VR_to_SOAP q = .ok (soapName, idx) := by
    unfold CatalogueTranslator.VR_to_SOAP
    rw [htable]
  refine ⟨?_, ?_, by decide⟩
  · rintro rfl
    simp only [SOAP.get_quantity, hdirect, hnative, hvr, hres]
    norm_num
  · rintro k rfl
    simp only [SOAP.get_quantity, hdirect, hnative, hvr, hres]
    norm_num

/-- A concrete successor-format tree: the dataset
`ExclusiveSphere/30kpc/StellarMass` as registered (`30kpc` is rebased to
`v30kpc` because it starts with a digit), with placeholder values. -/
def soapTree0 : SOAP.CatNode (List Int) :=
  .group [("exclusivesphere",
    .group [("v30kpc", .group [("stellarmass", .dataset [10, 20, 30])])])]

/-- Witness for C7: the end-to-end resolution of
`apertures.mass_star_30_kpc` on `soapTree0` (no direct attribute, no native
field of that dotted path) returns the whole values of the dataset at
`exclusivesphere.30kpc.stellarmass`. -/
theorem c7_translated_resolution_witness :
    SOAP.get_quantity (fun _ => none) soapTree0 (fun v _ => v)
        "apertures.mass_star_30_kpc" = .value [10, 20, 30] :=
  (c7_translated_resolution (List Int) (fun _ => none) soapTree0 (fun v _ => v)
    "apertures.mass_star_30_kpc" "exclusivesphere.30kpc.stellarmass" (-1)
    [10, 20, 30] rfl (by rfl) (by decide) (by rfl)).1 rfl

/-- C8: when direct, native and translated resolution have all failed, the
two allow-listed legacy quantities `apertures.veldisp_star_10_kpc` and
`apertures.veldisp_star_30_kpc` (which indeed have no entry in the
translation table) make `get_quantity` print a message and return `None`
(`missing`) instead of raising; any other name whose translation is absent
surfaces the `NotImplementedError` ("no such quantity"). -/
theorem c8_allowlist_missing (α : Type) (direct : String → Option α)
    (root : SOAP.CatNode α) (col : α → Nat → α) (q : String)
    (hq : q = "apertures.veldisp_star_10_kpc" ∨
      q = "apertures.veldisp_star_30_kpc")
    (hdirect : direct q = none)
    (hnative : SOAP.get_SOAP_quantity root q = .attrError) :
    (CatalogueTranslator.VR_to_SOAP_translator.lookup q = none ∧
      SOAP.get_quantity direct root col q = .missing) ∧
    (∀ (q' : String) (msg : String), direct q' = none →
      SOAP.get_SOAP_quantity root q' = .attrError →
      CatalogueTranslator.VR_to_SOAP q' = .error msg →
      q' ≠ "apertures.veldisp_star_10_kpc" →
      q' ≠ "apertures.veldisp_star_30_kpc" →
      SOAP.get_quantity direct root col q' = .notImpl msg) := by
  constructor
  · have hlook : CatalogueTranslator.VR_to_SOAP_translator.lookup q = none := by
      rcases hq with rfl | rfl
      · decide
      · decide
    have hvr : CatalogueTranslator.VR_to_SOAP q =
        .error ("No SOAP analogue for property " ++ q ++ "!") := by
      unfold CatalogueTranslator.VR_to_SOAP
      rw [hlook]
    refine ⟨hlook, ?_⟩
    simp only [SOAP.get_quantity, hdirect, hnative, hvr]
    rw [if_pos hq]
  · intro q' msg hd hn hvr h1 h2
    simp only [SOAP.get_quantity, hd, hn, hvr]
    rw [if_neg]
    rintro (rfl | rfl)
    · exact h1 rfl
    · exact h2 rfl

/-- Witness for C8: on an empty successor tree with no direct attributes,
`get_quantity` of `apertures.veldisp_star_10_kpc` returns `missing`. -/
theorem c8_allowlist_missing_witness :
    SOAP.get_quantity (fun _ => none)
        (SOAP.CatNode.group ([] : List (String × SOAP.CatNode (List Int))))
        (fun v _ => v) "apertures.veldisp_star_10_kpc" = .missing :=
  (c8_allowlist_missing (List Int) (fun _ => none) (SOAP.CatNode.group [])
    (fun v _ => v) "apertures.veldisp_star_10_kpc" (Or.inl rfl) rfl (by rfl)).1.2

/-! ## C4: symbolic evaluation of the aperture pattern -/

namespace PyRe

theorem reM_seq {σ : Type} (a b : RE) (cs : List Char) (caps : Caps)
    (k : List Char → Caps → Option σ) :
    reM (.seq a b) cs caps k = reM a cs caps (fun cs' caps' => reM b cs' caps' k) :=
  rfl

theorem reM_grp {σ : Type} (i : Nat) (r : RE) (cs : List Char) (caps : Caps)
    (k : List Char → Caps → Option σ) :
    reM (.grp i r) cs caps k =
      reM r cs caps
        (fun cs' caps' => k cs' (setCap caps' i (cs.take (cs.length - cs'.length)))) :=
  rfl

theorem reM_opt {σ : Type} (r : RE) (cs : List Char) (caps : Caps)
    (k : List Char → Caps → Option σ) :
    reM (.opt r) cs caps k =
      match reM r cs caps k with
      | some res => some res
      | none => k cs caps :=
  rfl

theorem reM_lit_append {σ : Type} (s rest : List Char) (caps : Caps)
    (k : List Char → Caps → Option σ) :
    reM (.lit s) (s ++ rest) caps k = k rest caps := by
  have hp : s.isPrefixOf (s ++ rest) = true := by
    rw [List.isPrefixOf_iff_prefix]
    exact List.prefix_append s rest
  simp only [reM, hp, if_true, List.drop_left]

theorem reM_lit_self {σ : Type} (s : List Char) (caps : Caps)
    (k : List Char → Caps → Option σ) :
    reM (.lit s) s caps k = k [] caps := by
  simpa using reM_lit_append s [] caps k

theorem reM_lit_none {σ : Type} (c : Char) (l cs : List Char) (caps : Caps)
    (k : List Char → Caps → Option σ) (h : cs.head? ≠ some c) :
    reM (.lit (c :: l)) cs caps k = none := by
  cases cs with
  | nil => rfl
  | cons d rest =>
    have hcd : (c == d) = false := by
      rw [beq_eq_false_iff_ne]
      intro e
      subst e
      exact h rfl
    simp [reM, List.isPrefixOf, hcd]

theorem runLen_append (p : Char → Bool) (q rest : List Char)
    (hq : ∀ c ∈ q, p c = true)
    (hrest : ∀ c, rest.head? = some c → p c = false) :
    runLen p (q ++ rest) = q.length := by
  induction q with
  | nil =>
    cases rest with
    | nil => rfl
    | cons c t => simp [runLen, hrest c rfl]
  | cons c t ih =>
    have hc := hq c (List.mem_cons_self c t)
    have ih' := ih (fun x hx => hq x (List.mem_cons_of_mem c hx))
    simp [List.cons_append, runLen, hc, List.append_eq, ih']

theorem tryStar_of_some {σ : Type} (k : List Char → Caps → Option σ)
    (cs : List Char) (caps : Caps) (n : Nat) (res : σ)
    (h : k (cs.drop n) caps = some res) : tryStar k cs caps n = some res := by
  cases n with
  | zero => simpa using h
  | succ m => simp only [tryStar, h]

theorem reM_starCls_append {σ : Type} (p : Char → Bool) (q rest : List Char)
    (caps : Caps) (k : List Char → Caps → Option σ) (res : σ)
    (hq : ∀ c ∈ q, p c = true)
    (hrest : ∀ c, rest.head? = some c → p c = false)
    (hk : k rest caps = some res) :
    reM (.starCls p) (q ++ rest) caps k = some res := by
  simp only [reM]
  rw [runLen_append p q rest hq hrest]
  apply tryStar_of_some
  rw [List.drop_left]
  exact hk

theorem take_append_cancel (q rest : List Char) :
    (q ++ rest).take ((q ++ rest).length - rest.length) = q := by
  rw [List.length_append, Nat.add_sub_cancel, List.take_left]

theorem reM_grp_starCls {σ : Type} (i : Nat) (p : Char → Bool) (q rest : List Char)
    (caps : Caps) (k : List Char → Caps → Option σ) (res : σ)
    (hq : ∀ c ∈ q, p c = true)
    (hrest : ∀ c, rest.head? = some c → p c = false)
    (hk : k rest (setCap caps i q) = some res) :
    reM (.grp i (.starCls p)) (q ++ rest) caps k = some res := by
  rw [reM_grp]
  apply reM_starCls_append p q rest caps _ res hq hrest
  simpa [take_append_cancel] using hk

theorem seq_lit_append {σ : Type} (s rest : List Char) (caps : Caps)
    (k : List Char → Caps → Option σ) (b : RE) (res : σ)
    (hk : reM b rest caps k = some res) :
    reM (.seq (.lit s) b) (s ++ rest) caps k = some res := by
  rw [reM_seq, reM_lit_append]
  exact hk

theorem seq_lit_underscore {σ : Type} (rest : List Char) (caps : Caps)
    (k : List Char → Caps → Option σ) (b : RE) (res : σ)
    (hk : reM b rest caps k = some res) :
    reM (.seq (.lit "_".data) b) ('_' :: rest) caps k = some res :=
  seq_lit_append "_".data rest caps k b res hk

theorem seq_grp_star {σ : Type} (i : Nat) (p : Char → Bool) (q rest : List Char)
    (caps : Caps) (k : List Char → Caps → Option σ) (b : RE) (res : σ)
    (hq : ∀ c ∈ q, p c = true)
    (hrest : ∀ c, rest.head? = some c → p c = false)
    (hk : reM b rest (setCap caps i q) k = some res) :
    reM (.seq (.grp i (.starCls p)) b) (q ++ rest) caps k = some res := by
  rw [reM_seq]
  exact reM_grp_starCls i p q rest caps _ res hq hrest hk

theorem seq_opt_grp_star {σ : Type} (i : Nat) (p : Char → Bool) (q rest : List Char)
    (caps : Caps) (k : List Char → Caps → Option σ) (b : RE) (res : σ)
    (hq : ∀ c ∈ q, p c = true)
    (hrest : ∀ c, rest.head? = some c → p c = false)
    (hk : reM b rest (setCap caps i q) k = some res) :
    reM (.seq (.opt (.grp i (.starCls p))) b) (q ++ rest) caps k = some res := by
  rw [reM_seq, reM_opt]
  rw [reM_grp_starCls i p q rest caps _ res hq hrest hk]

theorem seq_opt_grp_star_nil {σ : Type} (i : Nat) (p : Char → Bool) (cs : List Char)
    (caps : Caps) (k : List Char → Caps → Option σ) (b : RE) (res : σ)
    (hrest : ∀ c, cs.head? = some c → p c = false)
    (hk : reM b cs (setCap caps i []) k = some res) :
    reM (.seq (.opt (.grp i (.starCls p))) b) cs caps k = some res := by
  have := seq_opt_grp_star i p [] cs caps k b res (by simp) hrest hk
  simpa using this

theorem seq_opt_lit_underscore {σ : Type} (rest : List Char) (caps : Caps)
    (k : List Char → Caps → Option σ) (b : RE) (res : σ)
    (hk : reM b rest caps k = some res) :
    reM (.seq (.opt (.lit "_".data)) b) ('_' :: rest) caps k = some res := by
  rw [reM_seq, reM_opt]
  have h1 : reM (.lit "_".data) ('_' :: rest) caps
      (fun cs' caps' => reM b cs' caps' k) = some res := by
    have e : ('_' :: rest) = "_".data ++ rest := rfl
    rw [e, reM_lit_append]
    exact hk
  rw [h1]

theorem seq_opt_lit_underscore_skip {σ : Type} (cs : List Char) (caps : Caps)
    (k : List Char → Caps → Option σ) (b : RE) (res : σ)
    (h : cs.head? ≠ some '_')
    (hk : reM b cs caps k = some res) :
    reM (.seq (.opt (.lit "_".data)) b) cs caps k = some res := by
  rw [reM_seq, reM_opt]
  have e : ("_".data : List Char) = '_' :: ([] : List Char) := rfl
  rw [e, reM_lit_none '_' [] cs caps _ h]
  exact hk

theorem lit_self_end {σ : Type} (s : List Char) (caps : Caps)
    (k : List Char → Caps → Option σ) (res : σ)
    (hk : k [] caps = some res) :
    reM (.lit s) s caps k = some res := by
  rw [reM_lit_self]
  exact hk

end PyRe

theorem digit_not_alpha (c : Char) (h : isDigitChar c = true) :
    isAlphaChar c = false := by
  simp only [isDigitChar, decide_eq_true_eq] at h
  simp only [isAlphaChar, isLowerAlpha, isUpperAlpha, Bool.or_eq_false_iff,
    decide_eq_false_iff_not]
  constructor
  · rintro ⟨h1, _⟩
    exact absurd (le_trans h1 h.2) (by decide)
  · rintro ⟨h1, _⟩
    exact absurd (le_trans h1 h.2) (by decide)

theorem digit_ne_underscore (c : Char) (h : isDigitChar c = true) : c ≠ '_' := by
  intro e
  rw [e] at h
  exact absurd h (by decide)

/-- The character-list form of a raw name built from the aperture-pattern
components: quantity `q`, particle type `p`, optional star-forming flag `f`,
aperture size digits `n`. -/
def apertureNameChars (q p : List Char) (f : Option (List Char)) (n : List Char) :
    List Char :=
  match f with
  | some s =>
    "Aperture_".data ++ (q ++ ('_' :: (p ++ ('_' :: (s ++ ('_' :: (n ++ "_kpc".data)))))))
  | none =>
    "Aperture_".data ++ (q ++ ('_' :: (p ++ ('_' :: (n ++ "_kpc".data)))))

/-- The same raw name as a string (what is passed to the registration
functions). -/
def apertureRawName (q p : List Char) (f : Option (List Char)) (n : List Char) :
    String :=
  String.mk (apertureNameChars q p f n)

open PyRe in
/-- Matching the aperture pattern against any name of the family recovers
exactly the four components: group 1 is the quantity, group 2 the particle
type, group 3 the star-forming flag (the empty participation when the flag is
absent, as CPython reports), group 4 the size digits. -/
theorem aperture_pymatch_family (q p : List Char) (f : Option (List Char))
    (n : List Char)
    (hq : ∀ c ∈ q, isNotUnderscore c = true)
    (hp : ∀ c ∈ p, isAlphaChar c = true)
    (hf : ∀ s, f = some s → ∀ c ∈ s, isAlphaChar c = true)
    (hn : ∀ c ∈ n, isDigitChar c = true)
    (hn0 : n ≠ []) :
    pymatch apertureRE (apertureNameChars q p f n) =
      some [(4, n), (3, f.getD []), (2, p), (1, q)] := by
  obtain ⟨d, n', rfl⟩ : ∃ d n', n = d :: n' := by
    cases n with
    | nil => exact absurd rfl hn0
    | cons d n' => exact ⟨d, n', rfl⟩
  have hboundary_kpc : ∀ c, ("_kpc".data : List Char).head? = some c →
      isDigitChar c = false := by
    intro c hc
    cases hc
    decide
  have hboundary_u : ∀ (X : List Char) (c : Char),
      ('_' :: X).head? = some c → isAlphaChar c = false := by
    intro X c hc
    cases hc
    decide
  have hboundary_u2 : ∀ (X : List Char) (c : Char),
      ('_' :: X).head? = some c → isNotUnderscore c = false := by
    intro X c hc
    cases hc
    decide
  have hdigit_head : ∀ (c : Char),
      ((d :: n') ++ "_kpc".data).head? = some c → isAlphaChar c = false := by
    intro c hc
    cases hc
    exact digit_not_alpha d (hn d (List.mem_cons_self d n'))
  have hskip : ((d :: n') ++ "_kpc".data).head? ≠ some '_' := by
    intro he
    exact digit_ne_underscore d (hn d (List.mem_cons_self d n')) (Option.some.inj he)
  cases f with
  | some s =>
    simp only [apertureNameChars]
    show reM apertureRE _ [] _ = _
    simp only [apertureRE, PyRe.cat]
    apply seq_lit_append
    apply seq_grp_star 1 isNotUnderscore q _ _ _ _ _ hq (hboundary_u2 _)
    apply seq_lit_underscore
    apply seq_opt_grp_star 2 isAlphaChar p _ _ _ _ _ hp (hboundary_u _)
    apply seq_opt_lit_underscore
    apply seq_opt_grp_star 3 isAlphaChar s _ _ _ _ _ (hf s rfl) (hboundary_u _)
    apply seq_opt_lit_underscore
    apply seq_grp_star 4 isDigitChar (d :: n') _ _ _ _ _ hn hboundary_kpc
    apply lit_self_end
    rfl
  | none =>
    simp only [apertureNameChars]
    show reM apertureRE _ [] _ = _
    simp only [apertureRE, PyRe.cat]
    apply seq_lit_append
    apply seq_grp_star 1 isNotUnderscore q _ _ _ _ _ hq (hboundary_u2 _)
    apply seq_lit_underscore
    apply seq_opt_grp_star 2 isAlphaChar p _ _ _ _ _ hp (hboundary_u _)
    apply seq_opt_lit_underscore
    apply seq_opt_grp_star_nil 3 isAlphaChar _ _ _ _ _ hdigit_head
    apply seq_opt_lit_underscore_skip _ _ _ _ _ hskip
    apply seq_grp_star 4 isDigitChar (d :: n') _ _ _ _ _ hn hboundary_kpc
    apply lit_self_end
    rfl

/-- Helper: a successful `List.lookup` returns one of the stored values. -/
theorem mem_values_of_lookup_eq_some {β : Type} (l : List (String × β)) (a : String)
    (b : β) (h : l.lookup a = some b) : b ∈ l.map Prod.snd := by
  induction l with
  | nil => simp [List.lookup] at h
  | cons kv tl ih =>
    rw [List.lookup] at h
    simp only [List.map_cons, List.mem_cons]
    cases hb : (a == kv.1) with
    | true =>
      rw [hb] at h
      simp only [Option.some.injEq] at h
      exact Or.inl h.symm
    | false =>
      rw [hb] at h
      exact Or.inr (ih h)

/-- The values of the legacy `get_particle_property_name_conversion` table. -/
def apertureNameValues : List String := [
  "SFR $\\dot\x7b\\rho\x7d_*$",
  "Gas SFR $\\dot\x7b\\rho\x7d_*$",
  "Metallicity $Z$",
  "Gas Metallicity $Z_\x7b\\rm g\x7d$",
  "Stellar Metallicity $Z_*$",
  "Black Hole Metallicity $Z_\x7b\\rm BH\x7d$",
  "Mass $M$",
  "Gas Mass $M_\x7b\\rm g\x7d$",
  "Stellar Mass $M_*$",
  "Black Hole Mass $M_\x7b\\rm BH\x7d$",
  "Number of Particles $N$",
  "Number of Gas Particles $N_\x7b\\rm g\x7d$",
  "Number of Stellar Particles $N_*$",
  "Black Hole Mass $N_\x7b\\rm BH\x7d$",
  "Half-mass Radius $R_\x7b50\x7d$",
  "Gas Half-mass Radius $R_\x7b50, \x7b\\rm g\x7d\x7d$",
  "Stellar Half-mass Radius $R_\x7b50, *\x7d$",
  "Black Hole Half-mass Radius $R_\x7b50, \x7b\\rm BH\x7d\x7d$",
  "Velocity Dispersion $\\sigma$",
  "Gas Velocity Dispersion $\\sigma_\x7b\\rm g\x7d\x7d$",
  "Stellar Velocity Dispersion $\\sigma_\x7b*\x7d$",
  "Black Hole Velocity Dispersion $\\sigma_\x7b\\rm BH\x7d$"]

/-- A successful legacy name conversion always returns a table value. -/
theorem name_conversion_mem (q pt nm : String)
    (h : Translator.get_particle_property_name_conversion q pt = .ok nm) :
    nm ∈ apertureNameValues := by
  simp only [Translator.get_particle_property_name_conversion] at h
  cases hl : (([
    ("SFR_", "SFR $\\dot\x7b\\rho\x7d_*$"),
    ("SFR_gas", "Gas SFR $\\dot\x7b\\rho\x7d_*$"),
    ("Zmet_", "Metallicity $Z$"),
    ("Zmet_gas", "Gas Metallicity $Z_\x7b\\rm g\x7d$"),
    ("Zmet_star", "Stellar Metallicity $Z_*$"),
    ("Zmet_bh", "Black Hole Metallicity $Z_\x7b\\rm BH\x7d$"),
    ("mass_", "Mass $M$"),
    ("mass_gas", "Gas Mass $M_\x7b\\rm g\x7d$"),
    ("mass_star", "Stellar Mass $M_*$"),
    ("mass_bh", "Black Hole Mass $M_\x7b\\rm BH\x7d$"),
    ("npart_", "Number of Particles $N$"),
    ("npart_gas", "Number of Gas Particles $N_\x7b\\rm g\x7d$"),
    ("npart_star", "Number of Stellar Particles $N_*$"),
    ("npart_bh", "Black Hole Mass $N_\x7b\\rm BH\x7d$"),
    ("rhalfmass_", "Half-mass Radius $R_\x7b50\x7d$"),
    ("rhalfmass_gas", "Gas Half-mass Radius $R_\x7b50, \x7b\\rm g\x7d\x7d$"),
    ("rhalfmass_star", "Stellar Half-mass Radius $R_\x7b50, *\x7d$"),
    ("rhalfmass_bh", "Black Hole Half-mass Radius $R_\x7b50, \x7b\\rm BH\x7d\x7d$"),
    ("veldisp_", "Velocity Dispersion $\\sigma$"),
    ("veldisp_gas", "Gas Velocity Dispersion $\\sigma_\x7b\\rm g\x7d\x7d$"),
    ("veldisp_star", "Stellar Velocity Dispersion $\\sigma_\x7b*\x7d$"),
    ("veldisp_bh", "Black Hole Velocity Dispersion $\\sigma_\x7b\\rm BH\x7d$")] :
      List (String × String)).lookup
        (Translator.typo_correct q ++ "_" ++ pt)) with
  | none =>
    rw [hl] at h
    simp at h
  | some v =>
    rw [hl] at h
    simp only [Except.ok.injEq] at h
    subst h
    exact mem_values_of_lookup_eq_some _ _ _ hl

/-- None of the table values begins with a star-forming marker. -/
theorem apertureNameValues_no_marker :
    ∀ v ∈ apertureNameValues, ∀ rest : List Char,
      "SF ".data.isPrefixOf (v.data ++ rest) = false ∧
      "NSF ".data.isPrefixOf (v.data ++ rest) = false := by
  intro v hv rest
  fin_cases hv <;> exact ⟨rfl, rfl⟩

set_option maxHeartbeats 1000000 in
/-- C4: for every raw name built from the aperture pattern's components
(quantity with no underscore, alphabetic particle type, star-forming flag
`sf`/`nsf`/absent, non-empty digit string for the size), whenever
classification produces a result, the canonical name is the lowercased raw
name and the display label carries exactly the marker the flag dictates:
prefix `"SF "` for `sf`, `"NSF "` for `nsf`, and neither marker when the
flag is absent (no table value starts with a marker).  In particular,
classifying `Aperture_SFR_gas_sf_30_kpc` yields unit equal to the unit
system's `star_formation_rate`, a label containing `SF` and `30 kpc`, and
canonical name `aperture_sfr_gas_sf_30_kpc`. -/
theorem c4_aperture_labels :
    (∀ (q p : List Char) (f : Option (List Char)) (n : List Char)
        (us : VelociraptorUnits) (u : PhysUnit) (nm sc : String),
      (∀ c ∈ q, isNotUnderscore c = true) →
      (∀ c ∈ p, isAlphaChar c = true) →
      (f = none ∨ f = some "sf".data ∨ f = some "nsf".data) →
      (∀ c ∈ n, isDigitChar c = true) → n ≠ [] →
      registration_apertures (apertureRawName q p f n) us = .matched u nm sc →
      sc = pyLower (apertureRawName q p f n) ∧
      (f = some "sf".data → "SF ".data.isPrefixOf nm.data = true ∧
        "NSF ".data.isPrefixOf nm.data = false) ∧
      (f = some "nsf".data → "NSF ".data.isPrefixOf nm.data = true ∧
        "SF ".data.isPrefixOf nm.data = false) ∧
      (f = none → "SF ".data.isPrefixOf nm.data = false ∧
        "NSF ".data.isPrefixOf nm.data = false)) ∧
    (∀ us : VelociraptorUnits,
      registration_apertures "Aperture_SFR_gas_sf_30_kpc" us =
        .matched us.star_formation_rate
          "SF Gas SFR $\\dot\x7b\\rho\x7d_*$ (30 kpc)" "aperture_sfr_gas_sf_30_kpc") ∧
    "SF".data <:+: "SF Gas SFR $\\dot\x7b\\rho\x7d_*$ (30 kpc)".data ∧
    "30 kpc".data <:+: "SF Gas SFR $\\dot\x7b\\rho\x7d_*$ (30 kpc)".data := by
  refine ⟨?_, fun us => rfl, by decide, by decide⟩
  intro q p f n us u nm sc hq hp hflag hn hn0 hmatch
  obtain ⟨d, n', rfl⟩ : ∃ d n', n = d :: n' := by
    cases n with
    | nil => exact absurd rfl hn0
    | cons d n' => exact ⟨d, n', rfl⟩
  rcases hflag with rfl | rfl | rfl
  · -- f = none
    have hfam := aperture_pymatch_family q p none (d :: n') hq hp
      (by rintro s hs; cases hs) hn hn0
    simp only [registration_apertures, apertureRawName] at hmatch
    rw [hfam] at hmatch
    simp [PyRe.getCap, List.find?, PyRe.truthy, List.isEmpty] at hmatch
    cases hu : Translator.get_aperture_unit (String.mk q) us with
    | error e =>
      rw [hu] at hmatch
      simp at hmatch
    | ok u2 =>
      rw [hu] at hmatch
      cases hnm : Translator.get_particle_property_name_conversion (String.mk q)
          (String.mk p) with
      | error e =>
        rw [hnm] at hmatch
        simp at hmatch
      | ok nm2 =>
        rw [hnm] at hmatch
        simp only [RegOutcome.matched.injEq] at hmatch
        obtain ⟨hu3, hnm3, hsc3⟩ := hmatch
        have hmem := name_conversion_mem _ _ _ hnm
        have hdata : nm.data = nm2.data ++
            (" (".data ++ ((toString (digitsToNat (d :: n'))).data ++ " kpc)".data)) := by
          rw [← hnm3]
          simp [String.data_append, List.append_assoc]
        have hmark := apertureNameValues_no_marker nm2 hmem
          (" (".data ++ ((toString (digitsToNat (d :: n'))).data ++ " kpc)".data))
        refine ⟨hsc3.symm, ?_, ?_, ?_⟩
        · rintro ⟨⟩
        · rintro ⟨⟩
        · intro _
          rw [hdata]
          exact hmark
  · -- f = some "sf"
    have hfam := aperture_pymatch_family q p (some ['s', 'f']) (d :: n') hq hp
      (by rintro s hs; cases hs; decide) hn hn0
    simp only [registration_apertures, apertureRawName] at hmatch
    rw [hfam] at hmatch
    simp [PyRe.getCap, List.find?, PyRe.truthy, List.isEmpty] at hmatch
    cases hu : Translator.get_aperture_unit (String.mk q) us with
    | error e =>
      rw [hu] at hmatch
      simp at hmatch
    | ok u2 =>
      rw [hu] at hmatch
      cases hnm : Translator.get_particle_property_name_conversion (String.mk q)
          (String.mk p) with
      | error e =>
        rw [hnm] at hmatch
        simp at hmatch
      | ok nm2 =>
        rw [hnm] at hmatch
        simp only [RegOutcome.matched.injEq] at hmatch
        obtain ⟨hu3, hnm3, hsc3⟩ := hmatch
        have hupper : pyUpper "sf" ++ " " = "SF " := rfl
        rw [hupper] at hnm3
        have hdata : nm.data = "SF ".data ++
            (nm2.data ++ (" (".data ++
              ((toString (digitsToNat (d :: n'))).data ++ " kpc)".data))) := by
          rw [← hnm3]
          simp [String.data_append, List.append_assoc]
        refine ⟨hsc3.symm, ?_, ?_, ?_⟩
        · intro _
          constructor
          · rw [hdata, List.isPrefixOf_iff_prefix]
            exact List.prefix_append _ _
          · rw [hdata]
            rfl
        · rintro ⟨⟩
        · rintro ⟨⟩
  · -- f = some "nsf"
    have hfam := aperture_pymatch_family q p (some ['n', 's', 'f']) (d :: n') hq hp
      (by rintro s hs; cases hs; decide) hn hn0
    simp only [registration_apertures, apertureRawName] at hmatch
    rw [hfam] at hmatch
    simp [PyRe.getCap, List.find?, PyRe.truthy, List.isEmpty] at hmatch
    cases hu : Translator.get_aperture_unit (String.mk q) us with
    | error e =>
      rw [hu] at hmatch
      simp at hmatch
    | ok u2 =>
      rw [hu] at hmatch
      cases hnm : Translator.get_particle_property_name_conversion (String.mk q)
          (String.mk p) with
      | error e =>
        rw [hnm] at hmatch
        simp at hmatch
      | ok nm2 =>
        rw [hnm] at hmatch
        simp only [RegOutcome.matched.injEq] at hmatch
        obtain ⟨hu3, hnm3, hsc3⟩ := hmatch
        have hupper : pyUpper "nsf" ++ " " = "NSF " := rfl
        rw [hupper] at hnm3
        have hdata : nm.data = "NSF ".data ++
            (nm2.data ++ (" (".data ++
              ((toString (digitsToNat (d :: n'))).data ++ " kpc)".data))) := by
          rw [← hnm3]
          simp [String.data_append, List.append_assoc]
        refine ⟨hsc3.symm, ?_, ?_, ?_⟩
        · rintro ⟨⟩
        · intro _
          constructor
          · rw [hdata, List.isPrefixOf_iff_prefix]
            exact List.prefix_append _ _
          · rw [hdata]
            rfl
        · rintro ⟨⟩

/-- Witness for C4 at the concrete raw name `Aperture_SFR_gas_sf_30_kpc`
(quantity `SFR`, particle type `gas`, flag `sf`, size digits `30`). -/
theorem c4_aperture_labels_witness :
    "aperture_sfr_gas_sf_30_kpc" =
      pyLower (apertureRawName "SFR".data "gas".data (some "sf".data) "30".data) ∧
    "SF ".data.isPrefixOf "SF Gas SFR $\\dot\x7b\\rho\x7d_*$ (30 kpc)".data = true := by
  have h := c4_aperture_labels.1 "SFR".data "gas".data (some "sf".data) "30".data
    us0 us0.star_formation_rate "SF Gas SFR $\\dot\x7b\\rho\x7d_*$ (30 kpc)"
    "aperture_sfr_gas_sf_30_kpc" (by decide) (by decide) (Or.inr (Or.inl rfl))
    (by decide) (by decide) (c4_aperture_labels.2.1 us0)
  exact ⟨h.1, (h.2.1 rfl).1⟩
